import Mathlib

/-!
Verification development for the web-search-mcp repository.

The repository contains two parallel implementations of the search engine:
the file src/services/googleSearch.ts (embedded below in namespace GS) and an
alternate implementation of the same module (embedded in namespace GS2), which
differ in the captcha-wait timeout, where browser state is saved, and how the
per-query state file is derived in a batch.  Both share the utility module
src/utils/browser.ts, whose loadSavedState and saveBrowserState are identical
in both variants and are embedded once.

Effectful steps (Playwright calls, file-system writes) are embedded as pure
functions over an explicit environment that fixes the outcome of every
external interaction, and every execution additionally produces a trace of
browser/file events so that resource-handling and escalation behaviour can be
stated as theorems about traces.
-/

deriving instance DecidableEq for Except

namespace WebSearchMcp

/-! ### String utilities with JavaScript semantics, kernel-computable -/

/-- Whether the first list is a leading segment of the second. -/
def charsHavePre : List Char → List Char → Bool
  | [], _ => true
  | _ :: _, [] => false
  | p :: ps, c :: cs => p == c && charsHavePre ps cs

/-- Whether pat occurs somewhere inside the second list. -/
def charsIncl (pat : List Char) : List Char → Bool
  | [] => charsHavePre pat []
  | c :: t => charsHavePre pat (c :: t) || charsIncl pat t

/-- JavaScript String.prototype.includes. -/
def jsIncludes (s pat : String) : Bool := charsIncl pat.data s.data

/-- JavaScript String.prototype.startsWith. -/
def strStartsWith (s pat : String) : Bool := charsHavePre pat.data s.data

/-- JavaScript String.prototype.slice(0, n), modelled on characters. -/
def strTake (s : String) (n : Nat) : String := (s.data.take n).asString

/-- Whether a string is empty, i.e. falsy in JavaScript. -/
def strIsEmpty (s : String) : Bool := s.data.isEmpty

/-- Replace the first occurrence of pat (as JavaScript String.prototype.replace
with a string pattern does) in a character list. -/
def replaceFirstChars (rep pat : List Char) : List Char → List Char
  | [] => if charsHavePre pat [] then rep else []
  | c :: t =>
    if charsHavePre pat (c :: t) then rep ++ (c :: t).drop pat.length
    else c :: replaceFirstChars rep pat t

/-- JavaScript String.prototype.replace with a string pattern: replaces only
the first occurrence. -/
def replaceFirst (s pat rep : String) : String :=
  (replaceFirstChars rep.data pat.data s.data).asString

/-! ### Data model (src/types and src/utils/browser.ts) -/

inductive ColorScheme
  | dark
  | light
deriving Repr, DecidableEq

inductive ReducedMotion
  | reduce
  | noPreference
deriving Repr, DecidableEq

inductive ForcedColors
  | active
  | noForcedColors
deriving Repr, DecidableEq

/-- FingerprintConfig from src/utils/browser.ts. -/
structure FingerprintConfig where
  deviceName : String
  locale : String
  timezoneId : String
  colorScheme : ColorScheme
  reducedMotion : ReducedMotion
  forcedColors : ForcedColors
deriving Repr, DecidableEq

/-- SavedState from src/utils/browser.ts: both fields optional, default empty. -/
structure SavedState where
  fingerprint : Option FingerprintConfig := none
  googleDomain : Option String := none
deriving Repr, DecidableEq

/-- SearchResult from src/types. -/
structure SearchResult where
  title : String
  link : String
  snippet : String
deriving Repr, DecidableEq

/-- SearchResponse from src/types. -/
structure SearchResponse where
  query : String
  results : List SearchResult
deriving Repr, DecidableEq

/-- SearchOptions: limit defaults to 10 and timeout to 60000 inside
googleSearch; stateFile is optional there (defaulted to
"./browser-state.json"), and none models an undefined field. -/
structure SearchOptions where
  limit : Nat := 10
  timeout : Nat := 60000
  stateFile : Option String := none
  noSaveState : Bool := false
  debug : Bool := false
  locale : String := "en-US"
deriving Repr, DecidableEq

/-! ### Result extraction (googleSearch.ts lines 128-171, identical in both
implementations).  The DOM as seen by the page.$$eval callbacks is abstracted
to the element data those callbacks actually read. -/

/-- A result-container element: the fields read by the structural-strategy
callback.  none models an absent sub-element (querySelector returning null). -/
structure ResultElement where
  titleText : Option String := none
  linkHref : Option String := none
  snippetText : Option String := none
deriving Repr, DecidableEq

/-- An anchor element matched by "a[href^='http']": the fields read by the
generic-fallback callback. -/
structure AnchorElement where
  hrefAttr : Option String := none
  hrefProp : String := ""
  text : Option String := none
  parentText : Option String := none
deriving Repr, DecidableEq

/-- The rendered results page, abstracted to the three element collections the
extraction code queries. -/
structure ResultsPage where
  searchG : List ResultElement := []
  dotG : List ResultElement := []
  httpAnchors : List AnchorElement := []
deriving Repr, DecidableEq

/-- One structural strategy: slice to maxResults, map to title/link/snippet
(missing pieces become ""), then drop candidates with a falsy title or link. -/
def extractStructural (elements : List ResultElement) (maxResults : Nat) :
    List SearchResult :=
  ((elements.take maxResults).map (fun el =>
    { title := el.titleText.getD ""
      link := el.linkHref.getD ""
      snippet := el.snippetText.getD "" })).filter
    (fun item => !strIsEmpty item.title && !strIsEmpty item.link)

/-- The generic-fallback element filter: href attribute starts with http and
does not contain "google.com/". -/
def fallbackKeep (el : AnchorElement) : Bool :=
  let href := el.hrefAttr.getD ""
  strStartsWith href "http" && !jsIncludes href "google.com/"

/-- The generic fallback: filter outbound anchors, slice to maxResults, map to
results (snippet is the parent text sliced to 200), drop falsy title/link. -/
def extractFallback (anchors : List AnchorElement) (maxResults : Nat) :
    List SearchResult :=
  (((anchors.filter fallbackKeep).take maxResults).map (fun el =>
    { title := el.text.getD ""
      link := el.hrefProp
      snippet := strTake (el.parentText.getD "") 200 })).filter
    (fun item => !strIsEmpty item.title && !strIsEmpty item.link)

/-- The extraction cascade: first structural strategy with a non-empty yield
wins; if both yield nothing, the generic fallback runs. -/
def runExtraction (page : ResultsPage) (limit : Nat) : List SearchResult :=
  let r1 := extractStructural page.searchG limit
  if r1.length > 0 then r1
  else
    let r2 := extractStructural page.dotG limit
    if r2.length > 0 then r2
    else extractFallback page.httpAnchors limit

/-! ### Session state store (src/utils/browser.ts lines 155-188, identical in
both variants of the module) -/

/-- What is on disk at a given path: absent, present but not valid JSON, or a
valid SavedState JSON document. -/
inductive FileContent
  | absent
  | invalidJson
  | savedJson (s : SavedState)
deriving Repr, DecidableEq

/-- fs.existsSync. -/
def FileContent.existsOnDisk : FileContent → Bool
  | .absent => false
  | _ => true

/-- The sidecar path: stateFile.replace(".json", "-fingerprint.json"). -/
def fingerprintFileOf (stateFile : String) : String :=
  replaceFirst stateFile ".json" "-fingerprint.json"

/-- loadSavedState (browser.ts lines 155-169): the snapshot reference is the
state-file path when that file exists; the sidecar is read only when the
snapshot exists too, and a JSON.parse failure is caught, logged and leaves the
SavedState empty.  The function is total: no input makes it fail. -/
def loadSavedState (fs : String → FileContent) (stateFile : String) :
    Option String × SavedState :=
  let fingerprintFile := fingerprintFileOf stateFile
  let storageState : Option String :=
    if (fs stateFile).existsOnDisk then some stateFile else none
  let savedState : SavedState :=
    if storageState.isSome && (fs fingerprintFile).existsOnDisk then
      match fs fingerprintFile with
      | .savedJson s => s
      | _ => {}
    else {}
  (storageState, savedState)

/-- Outcomes of the two writes performed by saveBrowserState. -/
structure SaveEnv where
  snapshotWriteFails : Bool := false
  sidecarWriteFails : Bool := false
deriving Repr, DecidableEq

/-- saveBrowserState (browser.ts lines 174-188): writes the storage snapshot
with context.storageState, then the fingerprint sidecar with writeFileSync,
sequentially and with no error handling between them.  Returns the list of
files successfully written and the error thrown, if any. -/
def saveBrowserState (env : SaveEnv) (stateFile : String) :
    List String × Option String :=
  let fingerprintFile := fingerprintFileOf stateFile
  if env.snapshotWriteFails then ([], some "storageState failed")
  else if env.sidecarWriteFails then ([stateFile], some "writeFileSync failed")
  else ([stateFile, fingerprintFile], none)

/-- The synthetic response the catch handler of performSearch returns: one
result with title "Search failed", an empty link, and the stringified error as
snippet (both implementations, googleSearch.ts line 183 / part_002 line 172). -/
def syntheticFailure (q msg : String) : SearchResponse :=
  { query := q, results := [{ title := "Search failed", link := "", snippet := msg }] }

/-- A browser process handle: either the caller-supplied one or one launched
by performSearch itself (identified by allocation order). -/
inductive BrowserRef
  | provided
  | owned (id : Nat)
deriving Repr, DecidableEq

/-- Observable browser / file-system events of one query execution. -/
inductive Ev
  | launchBrowser (id : Nat) (headless : Bool)
  | closePage
  | closeContext
  | closeBrowser (b : BrowserRef)
  | goto (domain : String)
  | waitEscapeChallenge (patterns : List String) (timeoutMs : Nat)
  | submitQuery (q : String)
  | writeFile (f : String)
  | escalateToVisible
deriving Repr, DecidableEq

def Ev.isEscalate : Ev → Bool
  | .escalateToVisible => true
  | _ => false

def Ev.isLaunch : Ev → Bool
  | .launchBrowser _ _ => true
  | _ => false

def Ev.isOwnedClose : Ev → Bool
  | .closeBrowser (.owned _) => true
  | _ => false

def Ev.isProvidedClose : Ev → Bool
  | .closeBrowser .provided => true
  | _ => false

/-- Number of headless-to-visible escalations in a trace. -/
def escalations (evs : List Ev) : Nat := evs.countP Ev.isEscalate

/-- Number of browser launches in a trace. -/
def launches (evs : List Ev) : Nat := evs.countP Ev.isLaunch

/-- Number of closes of browsers the query launched itself. -/
def ownedCloses (evs : List Ev) : Nat := evs.countP Ev.isOwnedClose

/-- Number of closes of the caller-supplied browser. -/
def providedCloses (evs : List Ev) : Nat := evs.countP Ev.isProvidedClose

/-- The outcome of every external interaction of one performSearch attempt in
one mode. Fields default to the untroubled outcome. -/
structure AttemptEnv where
  launchFails : Bool := false
  sessionSetupFails : Bool := false
  gotoFails : Bool := false
  blockedAtHome : Bool := false
  waitEscape1Fails : Bool := false
  searchBoxFound : Bool := true
  loadStateFails : Bool := false
  blockedAfterSubmit : Bool := false
  waitEscape2Fails : Bool := false
  loadState2Fails : Bool := false
  page : ResultsPage := {}
  save : SaveEnv := {}
deriving Repr, DecidableEq

/-- What one performSearch attempt produced: a googleSearch-level outcome
(ok response, or an exception propagating out of googleSearch), or a request
to retry the whole query in visible mode. -/
inductive AttemptOut
  | finished (r : Except String SearchResponse)
  | escalate
deriving Repr

/-- Whether an attempt requested the visible-mode retry. -/
def AttemptOut.isEsc : AttemptOut → Bool
  | .escalate => true
  | _ => false


namespace GS

/-- The google domain pool (googleSearch.ts lines 41-46). -/
def googleDomains : List String :=
  ["https://www.google.com", "https://www.google.co.uk",
   "https://www.google.ca", "https://www.google.com.au"]

/-- The challenge-URL patterns (googleSearch.ts line 81). -/
def captchaPatterns : List String :=
  ["google.com/sorry/index", "google.com/sorry", "recaptcha", "captcha",
   "unusual traffic"]

/-- One invocation of performSearch's body (googleSearch.ts lines 57-185),
with the recursive visible-mode retry of lines 90/122 returned as
AttemptOut.escalate for the caller to perform.  Browser launch and
context/page setup (lines 58-72) happen before the try block, so their
failures propagate out of googleSearch; every failure inside the try is
caught at the query boundary and converted into the synthetic failure
response.  String(error) is modelled as the error's message. -/
def attempt (q : String) (opts : SearchOptions) (provided : Bool)
    (stateFile selectedDomain : String) (e : AttemptEnv) (freshId : Nat)
    (headless forceNew : Bool) : AttemptOut × List Ev :=
  let browserWasProvided := provided && !forceNew
  if !browserWasProvided && e.launchFails then
    (.finished (.error "browser launch failed"), [])
  else
    let bref : BrowserRef := if browserWasProvided then .provided else .owned freshId
    let evs0 : List Ev :=
      if browserWasProvided then [] else [.launchBrowser freshId headless]
    if e.sessionSetupFails then
      (.finished (.error "session setup failed"), evs0)
    else
      let closeExit : List Ev :=
        if !browserWasProvided && !opts.debug then [.closeBrowser bref] else []
      let evs1 := evs0 ++ [.goto selectedDomain]
      if e.gotoFails then
        (.finished (.ok (syntheticFailure q "page.goto failed")), evs1 ++ closeExit)
      else if e.blockedAtHome && headless then
        (.escalate, evs1 ++ [.closePage, .closeContext] ++
          (if !browserWasProvided then [.closeBrowser bref] else []) ++
          [.escalateToVisible])
      else
        let evs2 := evs1 ++
          (if e.blockedAtHome then
            [.waitEscapeChallenge captchaPatterns (opts.timeout * 2)] else [])
        if e.blockedAtHome && e.waitEscape1Fails then
          (.finished (.ok (syntheticFailure q "waitForNavigation timeout")),
           evs2 ++ closeExit)
        else if !e.searchBoxFound then
          (.finished (.ok (syntheticFailure q "Could not find search box")),
           evs2 ++ closeExit)
        else
          let evs3 := evs2 ++ [.submitQuery q]
          if e.loadStateFails then
            (.finished (.ok (syntheticFailure q "waitForLoadState timeout")),
             evs3 ++ closeExit)
          else if e.blockedAfterSubmit && headless then
            (.escalate, evs3 ++ [.closePage, .closeContext] ++
              (if !browserWasProvided then [.closeBrowser bref] else []) ++
              [.escalateToVisible])
          else
            let evs4 := evs3 ++
              (if e.blockedAfterSubmit then
                [.waitEscapeChallenge captchaPatterns (opts.timeout * 2)] else [])
            if e.blockedAfterSubmit && e.waitEscape2Fails then
              (.finished (.ok (syntheticFailure q "waitForNavigation timeout")),
               evs4 ++ closeExit)
            else if e.blockedAfterSubmit && e.loadState2Fails then
              (.finished (.ok (syntheticFailure q "waitForLoadState timeout")),
               evs4 ++ closeExit)
            else
              let results := runExtraction e.page opts.limit
              let save := saveBrowserState e.save stateFile
              let evs5 := evs4 ++
                (if opts.noSaveState then [] else save.1.map Ev.writeFile)
              if !opts.noSaveState && save.2.isSome then
                (.finished (.ok (syntheticFailure q (save.2.getD ""))),
                 evs5 ++ closeExit)
              else
                (.finished (.ok { query := q, results := results }),
                 evs5 ++ closeExit)

/-- performSearch called with headless = false: syntactically, the escalation
branches of the body are dead (they are guarded by the headless flag), so the
attempt always finishes; the escalate case here is unreachable (theorem
attempt_false_finished below). -/
def performSearchVisible (q : String) (opts : SearchOptions) (provided : Bool)
    (stateFile selectedDomain : String) (e : AttemptEnv)
    (forceNew : Bool) (freshId : Nat) : Except String SearchResponse × List Ev :=
  match attempt q opts provided stateFile selectedDomain e freshId false forceNew with
  | (.finished r, evs) => (r, evs)
  | (.escalate, evs) => (.error "unreachable: no escalation in visible mode", evs)

/-- performSearch (googleSearch.ts lines 57-185).  The recursion of line
90/122 is performSearch(false, browserWasProvided); it is unrolled here since
the retry runs with headless = false and never recurses further.  The
recursive call sits inside the caller's try block, so an exception from the
visible retry (e.g. its browser launch failing) is caught by the headless
attempt's catch handler, which closes the headless attempt's browser variable
again and returns the synthetic failure response. -/
def performSearch (q : String) (opts : SearchOptions) (provided : Bool)
    (stateFile selectedDomain : String) (env : Bool → AttemptEnv)
    (headless forceNew : Bool) (freshId : Nat) :
    Except String SearchResponse × List Ev :=
  if headless then
    match attempt q opts provided stateFile selectedDomain (env true) freshId
        true forceNew with
    | (.finished r, evs) => (r, evs)
    | (.escalate, evs) =>
      let browserWasProvided := provided && !forceNew
      let bref : BrowserRef :=
        if browserWasProvided then .provided else .owned freshId
      match performSearchVisible q opts provided stateFile selectedDomain
          (env false) browserWasProvided (freshId + 1) with
      | (.ok resp, evs2) => (.ok resp, evs ++ evs2)
      | (.error msg, evs2) =>
        (.ok (syntheticFailure q msg),
         evs ++ evs2 ++
           (if !browserWasProvided && !opts.debug then [.closeBrowser bref] else []))
  else
    performSearchVisible q opts provided stateFile selectedDomain (env false)
      forceNew freshId

/-- googleSearch (googleSearch.ts lines 24-188): loads saved state once,
fixes the domain selection (the first attempt persists its choice in
savedState, so the escalated retry reuses it), and starts performSearch in
headless mode unless options.debug. -/
def googleSearch (q : String) (opts : SearchOptions) (provided : Bool)
    (fs : String → FileContent) (env : Bool → AttemptEnv) (domainIdx : Nat) :
    Except String SearchResponse × List Ev :=
  let stateFile := opts.stateFile.getD "./browser-state.json"
  let savedState := (loadSavedState fs stateFile).2
  let selectedDomain := savedState.googleDomain.getD
    (googleDomains.getD (domainIdx % googleDomains.length) "https://www.google.com")
  performSearch q opts provided stateFile selectedDomain env (!opts.debug) false 0

/-- The per-query state file of multiGoogleSearch (googleSearch.ts line 207):
the batch-level path suffixed with the query index, or an indexed default when
options.stateFile is falsy (undefined or empty). -/
def stateFileForIndex (opts : SearchOptions) (index : Nat) : String :=
  let sf := opts.stateFile.getD ""
  if strIsEmpty sf then "./browser-state-" ++ Nat.repr index ++ ".json"
  else sf ++ "-" ++ Nat.repr index

/-- The googleSearch call multiGoogleSearch makes for query i, with the shared
browser passed in and the per-index state file. -/
def perQueryOutcome (queries : List String) (opts : SearchOptions)
    (fss : Nat → String → FileContent) (envs : Nat → Bool → AttemptEnv)
    (domainIdxs : Nat → Nat) (i : Nat) : Except String SearchResponse × List Ev :=
  googleSearch (queries.getD i "")
    { opts with stateFile := some (stateFileForIndex opts i) }
    true (fss i) (envs i) (domainIdxs i)

/-- Promise.all: the batch resolves with all responses when every query
resolves, and rejects with the first rejection otherwise. -/
def collectAll : List (Except String SearchResponse) →
    Except String (List SearchResponse)
  | [] => .ok []
  | .error e :: _ => .error e
  | .ok r :: rest =>
    match collectAll rest with
    | .error e => .error e
    | .ok rs => .ok (r :: rs)

/-- multiGoogleSearch (googleSearch.ts lines 193-216): throws before any
browser is launched when the query list is empty; otherwise launches one
shared browser, runs every query concurrently against it, and closes the
shared browser in the finally block unless options.debug.  The returned trace
covers the shared browser only; the per-query traces are those of
perQueryOutcome (their concurrent interleaving is unspecified). -/
def multiGoogleSearch (queries : List String) (opts : SearchOptions)
    (fss : Nat → String → FileContent) (envs : Nat → Bool → AttemptEnv)
    (domainIdxs : Nat → Nat) : Except String (List SearchResponse) × List Ev :=
  if queries.isEmpty then (.error "At least one search query is required", [])
  else
    let outcome := collectAll ((List.range queries.length).map
      (fun i => (perQueryOutcome queries opts fss envs domainIdxs i).1))
    (outcome,
     [.launchBrowser 0 (!opts.debug)] ++
       (if !opts.debug then [.closeBrowser (.owned 0)] else []))

end GS

namespace GS2

/-- The challenge-URL patterns of the alternate implementation (part_002
line 65). -/
def captchaPatterns : List String := ["google.com/sorry"]

/-- What handleBlocked decides to do. -/
inductive BlockedDecision
  | escalateToVisible
  | waitForHuman (patterns : List String) (timeoutMs : Nat)
  | continueSearch
deriving Repr, DecidableEq

/-- handleBlocked of the alternate implementation (part_002 lines 68-83): on a
challenge in headless mode it closes page, context and (if owned) browser and
retries the whole query in visible mode; in visible mode it suspends with
page.waitForURL(url escapes every challenge pattern, timeout: 0) - timeout 0
disables Playwright's timeout, an indefinite wait for a human to solve the
challenge. -/
def handleBlocked (blocked headless : Bool) : BlockedDecision :=
  if blocked then
    if headless then .escalateToVisible
    else .waitForHuman captchaPatterns 0
  else .continueSearch

/-- The per-query state file of the alternate multiGoogleSearch (part_002
lines 192-199): searchOptions spreads the batch options without overriding
stateFile, so inside googleSearch every query of the batch resolves the same
state file, options.stateFile or its default. -/
def stateFileForIndex (opts : SearchOptions) (_index : Nat) : String :=
  opts.stateFile.getD "./browser-state.json"

end GS2

/-- Whether a response has the shape of the synthetic failure response: a
single result carrying the failure marker title and an empty link. -/
def SearchResponse.isSyntheticFailure (r : SearchResponse) : Bool :=
  match r.results with
  | [x] => x.title == "Search failed" && x.link == ""
  | _ => false

/-! ### Concrete fixtures used by counterexamples and witnesses -/

/-- A file system with no saved state. -/
def fsAbsent : String → FileContent := fun _ => .absent

/-- A results page whose first structural strategy yields one valid result. -/
def samplePage : ResultsPage :=
  { searchG := [{ titleText := some "T1", linkHref := some "https://x.example/",
                  snippetText := some "S1" }] }

/-- A file system where the storage snapshot exists but the fingerprint
sidecar holds invalid JSON. -/
def fsCorruptSidecar : String → FileContent := fun p =>
  if p = "./browser-state.json" then .savedJson {}
  else if p = "./browser-state-fingerprint.json" then .invalidJson
  else .absent

/-- A file system where the storage snapshot and a valid sidecar exist. -/
def fsWithState : String → FileContent := fun p =>
  if p = "./bs.json" then .savedJson {}
  else if p = "./bs-fingerprint.json" then
    .savedJson { googleDomain := some "https://www.google.ca" }
  else .absent

/-! ### A verified decimal printer, used to reason about the Nat.repr suffix
in the per-query state files. -/

/-- Decimal digits of n, most significant first. -/
def decRep (n : Nat) : List Char :=
  if _h : n < 10 then [Nat.digitChar n]
  else decRep (n / 10) ++ [Nat.digitChar (n % 10)]
decreasing_by
  exact Nat.div_lt_self (by omega) (by omega)

/-- The numeric value of a decimal digit character. -/
def digitVal (c : Char) : Nat := c.toNat - 48

/-- The numeric value of a decimal digit string. -/
def digitsVal (l : List Char) : Nat := l.foldl (fun a c => 10 * a + digitVal c) 0

/-- Unwrap a resolved query outcome (used to state what Promise.all yields
when every query resolves). -/
def okOr (d : SearchResponse) : Except String SearchResponse → SearchResponse
  | .ok r => r
  | .error _ => d

/-! ## Theorems -/

/-! ### Extraction bounds and filters -/

theorem extractStructural_length_le (elements : List ResultElement)
    (maxResults : Nat) :
    (extractStructural elements maxResults).length ≤ maxResults := by
  unfold extractStructural
  calc (((elements.take maxResults).map _).filter _).length
      ≤ ((elements.take maxResults).map _).length := List.length_filter_le _ _
    _ = (elements.take maxResults).length := List.length_map _ _
    _ ≤ maxResults := by simp [List.length_take]

theorem extractFallback_length_le (anchors : List AnchorElement)
    (maxResults : Nat) :
    (extractFallback anchors maxResults).length ≤ maxResults := by
  unfold extractFallback
  calc ((((anchors.filter fallbackKeep).take maxResults).map _).filter _).length
      ≤ (((anchors.filter fallbackKeep).take maxResults).map _).length :=
        List.length_filter_le _ _
    _ = ((anchors.filter fallbackKeep).take maxResults).length := List.length_map _ _
    _ ≤ maxResults := by simp [List.length_take]

theorem runExtraction_length_le (page : ResultsPage) (limit : Nat) :
    (runExtraction page limit).length ≤ limit := by
  dsimp only [runExtraction]
  split_ifs <;>
    first
      | exact extractStructural_length_le _ _
      | exact extractFallback_length_le _ _

theorem strIsEmpty_false_ne (s : String) (h : strIsEmpty s = false) : s ≠ "" := by
  intro he
  subst he
  simp [strIsEmpty] at h

theorem mem_extractStructural_nonempty (elements : List ResultElement)
    (maxResults : Nat) (r : SearchResult)
    (h : r ∈ extractStructural elements maxResults) :
    r.title ≠ "" ∧ r.link ≠ "" := by
  unfold extractStructural at h
  have hp := (List.mem_filter.mp h).2
  simp only [Bool.and_eq_true, Bool.not_eq_true'] at hp
  exact ⟨strIsEmpty_false_ne _ hp.1, strIsEmpty_false_ne _ hp.2⟩

theorem mem_extractFallback_nonempty (anchors : List AnchorElement)
    (maxResults : Nat) (r : SearchResult)
    (h : r ∈ extractFallback anchors maxResults) :
    r.title ≠ "" ∧ r.link ≠ "" := by
  unfold extractFallback at h
  have hp := (List.mem_filter.mp h).2
  simp only [Bool.and_eq_true, Bool.not_eq_true'] at hp
  exact ⟨strIsEmpty_false_ne _ hp.1, strIsEmpty_false_ne _ hp.2⟩

theorem mem_runExtraction_nonempty (page : ResultsPage) (limit : Nat)
    (r : SearchResult) (h : r ∈ runExtraction page limit) :
    r.title ≠ "" ∧ r.link ≠ "" := by
  dsimp only [runExtraction] at h
  split_ifs at h <;>
    first
      | exact mem_extractStructural_nonempty _ _ _ h
      | exact mem_extractFallback_nonempty _ _ _ h

/-! ### Shape of the outcomes of one performSearch attempt -/

theorem attempt_ok_shape (q : String) (opts : SearchOptions) (provided : Bool)
    (sf dom : String) (e : AttemptEnv) (fid : Nat) (hl fn : Bool)
    (r : SearchResponse)
    (h : (GS.attempt q opts provided sf dom e fid hl fn).1 = .finished (.ok r)) :
    (∃ m, r = syntheticFailure q m) ∨
      r = { query := q, results := runExtraction e.page opts.limit } := by
  unfold GS.attempt at h
  simp only [apply_ite Prod.fst] at h
  by_cases c1 : (!(provided && !fn) && e.launchFails) = true
  · rw [if_pos c1] at h
    exact absurd h (by simp)
  rw [if_neg c1] at h
  by_cases c2 : e.sessionSetupFails = true
  · rw [if_pos c2] at h
    exact absurd h (by simp)
  rw [if_neg c2] at h
  by_cases c3 : e.gotoFails = true
  · rw [if_pos c3] at h
    injection h with h
    injection h with h
    exact Or.inl ⟨_, h.symm⟩
  rw [if_neg c3] at h
  by_cases c4 : (e.blockedAtHome && hl) = true
  · rw [if_pos c4] at h
    exact AttemptOut.noConfusion h
  rw [if_neg c4] at h
  by_cases c5 : (e.blockedAtHome && e.waitEscape1Fails) = true
  · rw [if_pos c5] at h
    injection h with h
    injection h with h
    exact Or.inl ⟨_, h.symm⟩
  rw [if_neg c5] at h
  by_cases c6 : (!e.searchBoxFound) = true
  · rw [if_pos c6] at h
    injection h with h
    injection h with h
    exact Or.inl ⟨_, h.symm⟩
  rw [if_neg c6] at h
  by_cases c7 : e.loadStateFails = true
  · rw [if_pos c7] at h
    injection h with h
    injection h with h
    exact Or.inl ⟨_, h.symm⟩
  rw [if_neg c7] at h
  by_cases c8 : (e.blockedAfterSubmit && hl) = true
  · rw [if_pos c8] at h
    exact AttemptOut.noConfusion h
  rw [if_neg c8] at h
  by_cases c9 : (e.blockedAfterSubmit && e.waitEscape2Fails) = true
  · rw [if_pos c9] at h
    injection h with h
    injection h with h
    exact Or.inl ⟨_, h.symm⟩
  rw [if_neg c9] at h
  by_cases c10 : (e.blockedAfterSubmit && e.loadState2Fails) = true
  · rw [if_pos c10] at h
    injection h with h
    injection h with h
    exact Or.inl ⟨_, h.symm⟩
  rw [if_neg c10] at h
  by_cases c11 : (!opts.noSaveState && (saveBrowserState e.save sf).2.isSome) = true
  · rw [if_pos c11] at h
    injection h with h
    injection h with h
    exact Or.inl ⟨_, h.symm⟩
  rw [if_neg c11] at h
  injection h with h
  injection h with h
  exact Or.inr h.symm

theorem isEscalate_comp_writeFile (l : List String) :
    List.countP (Ev.isEscalate ∘ Ev.writeFile) l = 0 := by
  induction l with
  | nil => rfl
  | cons a t ih => simp [List.countP_cons, Ev.isEscalate, Function.comp, ih]

theorem isLaunch_comp_writeFile (l : List String) :
    List.countP (Ev.isLaunch ∘ Ev.writeFile) l = 0 := by
  induction l with
  | nil => rfl
  | cons a t ih => simp [List.countP_cons, Ev.isLaunch, Function.comp, ih]

theorem isOwnedClose_comp_writeFile (l : List String) :
    List.countP (Ev.isOwnedClose ∘ Ev.writeFile) l = 0 := by
  induction l with
  | nil => rfl
  | cons a t ih => simp [List.countP_cons, Ev.isOwnedClose, Function.comp, ih]

theorem isProvidedClose_comp_writeFile (l : List String) :
    List.countP (Ev.isProvidedClose ∘ Ev.writeFile) l = 0 := by
  induction l with
  | nil => rfl
  | cons a t ih => simp [List.countP_cons, Ev.isProvidedClose, Function.comp, ih]

theorem attempt_error_shape (q : String) (opts : SearchOptions) (provided : Bool)
    (sf dom : String) (e : AttemptEnv) (fid : Nat) (hl fn : Bool) (m : String)
    (h : (GS.attempt q opts provided sf dom e fid hl fn).1 = .finished (.error m)) :
    e.launchFails = true ∨ e.sessionSetupFails = true := by
  unfold GS.attempt at h
  simp only [apply_ite Prod.fst] at h
  by_cases c1 : (!(provided && !fn) && e.launchFails) = true
  · rw [if_pos c1] at h
    simp at c1
    exact Or.inl c1.2
  rw [if_neg c1] at h
  by_cases c2 : e.sessionSetupFails = true
  · rw [if_pos c2] at h
    exact Or.inr c2
  rw [if_neg c2] at h
  by_cases c3 : e.gotoFails = true
  · rw [if_pos c3] at h
    exact absurd h (by simp)
  rw [if_neg c3] at h
  by_cases c4 : (e.blockedAtHome && hl) = true
  · rw [if_pos c4] at h
    exact AttemptOut.noConfusion h
  rw [if_neg c4] at h
  by_cases c5 : (e.blockedAtHome && e.waitEscape1Fails) = true
  · rw [if_pos c5] at h
    exact absurd h (by simp)
  rw [if_neg c5] at h
  by_cases c6 : (!e.searchBoxFound) = true
  · rw [if_pos c6] at h
    exact absurd h (by simp)
  rw [if_neg c6] at h
  by_cases c7 : e.loadStateFails = true
  · rw [if_pos c7] at h
    exact absurd h (by simp)
  rw [if_neg c7] at h
  by_cases c8 : (e.blockedAfterSubmit && hl) = true
  · rw [if_pos c8] at h
    exact AttemptOut.noConfusion h
  rw [if_neg c8] at h
  by_cases c9 : (e.blockedAfterSubmit && e.waitEscape2Fails) = true
  · rw [if_pos c9] at h
    exact absurd h (by simp)
  rw [if_neg c9] at h
  by_cases c10 : (e.blockedAfterSubmit && e.loadState2Fails) = true
  · rw [if_pos c10] at h
    exact absurd h (by simp)
  rw [if_neg c10] at h
  by_cases c11 : (!opts.noSaveState && (saveBrowserState e.save sf).2.isSome) = true
  · rw [if_pos c11] at h
    exact absurd h (by simp)
  rw [if_neg c11] at h
  exact absurd h (by simp)

theorem attempt_escalate_hl (q : String) (opts : SearchOptions) (provided : Bool)
    (sf dom : String) (e : AttemptEnv) (fid : Nat) (hl fn : Bool)
    (h : (GS.attempt q opts provided sf dom e fid hl fn).1 = .escalate) :
    hl = true := by
  unfold GS.attempt at h
  simp only [apply_ite Prod.fst] at h
  by_cases c1 : (!(provided && !fn) && e.launchFails) = true
  · rw [if_pos c1] at h
    exact AttemptOut.noConfusion h
  rw [if_neg c1] at h
  by_cases c2 : e.sessionSetupFails = true
  · rw [if_pos c2] at h
    exact AttemptOut.noConfusion h
  rw [if_neg c2] at h
  by_cases c3 : e.gotoFails = true
  · rw [if_pos c3] at h
    exact AttemptOut.noConfusion h
  rw [if_neg c3] at h
  by_cases c4 : (e.blockedAtHome && hl) = true
  · rw [if_pos c4] at h
    simp at c4
    exact c4.2
  rw [if_neg c4] at h
  by_cases c5 : (e.blockedAtHome && e.waitEscape1Fails) = true
  · rw [if_pos c5] at h
    exact AttemptOut.noConfusion h
  rw [if_neg c5] at h
  by_cases c6 : (!e.searchBoxFound) = true
  · rw [if_pos c6] at h
    exact AttemptOut.noConfusion h
  rw [if_neg c6] at h
  by_cases c7 : e.loadStateFails = true
  · rw [if_pos c7] at h
    exact AttemptOut.noConfusion h
  rw [if_neg c7] at h
  by_cases c8 : (e.blockedAfterSubmit && hl) = true
  · rw [if_pos c8] at h
    simp at c8
    exact c8.2
  rw [if_neg c8] at h
  by_cases c9 : (e.blockedAfterSubmit && e.waitEscape2Fails) = true
  · rw [if_pos c9] at h
    exact AttemptOut.noConfusion h
  rw [if_neg c9] at h
  by_cases c10 : (e.blockedAfterSubmit && e.loadState2Fails) = true
  · rw [if_pos c10] at h
    exact AttemptOut.noConfusion h
  rw [if_neg c10] at h
  by_cases c11 : (!opts.noSaveState && (saveBrowserState e.save sf).2.isSome) = true
  · rw [if_pos c11] at h
    exact AttemptOut.noConfusion h
  rw [if_neg c11] at h
  exact AttemptOut.noConfusion h

theorem attempt_finished_escalations (q : String) (opts : SearchOptions)
    (provided : Bool) (sf dom : String) (e : AttemptEnv) (fid : Nat) (hl fn : Bool)
    (r : Except String SearchResponse)
    (h : (GS.attempt q opts provided sf dom e fid hl fn).1 = .finished r) :
    escalations (GS.attempt q opts provided sf dom e fid hl fn).2 = 0 := by
  unfold GS.attempt at h ⊢
  simp only [apply_ite Prod.fst] at h
  simp only [apply_ite Prod.snd, apply_ite escalations]
  by_cases c1 : (!(provided && !fn) && e.launchFails) = true
  · rw [if_pos c1] at h ⊢
    cases hbw : (provided && !fn) <;> simp [hbw, escalations, launches, ownedCloses, providedCloses, List.countP_append, List.countP_cons, List.countP_nil, List.countP_map, Ev.isEscalate, Ev.isLaunch, Ev.isOwnedClose, Ev.isProvidedClose, isEscalate_comp_writeFile, isLaunch_comp_writeFile, isOwnedClose_comp_writeFile, isProvidedClose_comp_writeFile, apply_ite (List.countP Ev.isEscalate), apply_ite (List.countP Ev.isLaunch), apply_ite (List.countP Ev.isOwnedClose), apply_ite (List.countP Ev.isProvidedClose)] <;> (try (intro a h1 x hx hxa; subst hxa; rfl))
  rw [if_neg c1] at h ⊢
  by_cases c2 : e.sessionSetupFails = true
  · rw [if_pos c2] at h ⊢
    cases hbw : (provided && !fn) <;> simp [hbw, escalations, launches, ownedCloses, providedCloses, List.countP_append, List.countP_cons, List.countP_nil, List.countP_map, Ev.isEscalate, Ev.isLaunch, Ev.isOwnedClose, Ev.isProvidedClose, isEscalate_comp_writeFile, isLaunch_comp_writeFile, isOwnedClose_comp_writeFile, isProvidedClose_comp_writeFile, apply_ite (List.countP Ev.isEscalate), apply_ite (List.countP Ev.isLaunch), apply_ite (List.countP Ev.isOwnedClose), apply_ite (List.countP Ev.isProvidedClose)] <;> (try (intro a h1 x hx hxa; subst hxa; rfl))
  rw [if_neg c2] at h ⊢
  by_cases c3 : e.gotoFails = true
  · rw [if_pos c3] at h ⊢
    cases hbw : (provided && !fn) <;> simp [hbw, escalations, launches, ownedCloses, providedCloses, List.countP_append, List.countP_cons, List.countP_nil, List.countP_map, Ev.isEscalate, Ev.isLaunch, Ev.isOwnedClose, Ev.isProvidedClose, isEscalate_comp_writeFile, isLaunch_comp_writeFile, isOwnedClose_comp_writeFile, isProvidedClose_comp_writeFile, apply_ite (List.countP Ev.isEscalate), apply_ite (List.countP Ev.isLaunch), apply_ite (List.countP Ev.isOwnedClose), apply_ite (List.countP Ev.isProvidedClose)] <;> (try (intro a h1 x hx hxa; subst hxa; rfl))
  rw [if_neg c3] at h ⊢
  by_cases c4 : (e.blockedAtHome && hl) = true
  · rw [if_pos c4] at h ⊢
    exact AttemptOut.noConfusion h.symm
  rw [if_neg c4] at h ⊢
  by_cases c5 : (e.blockedAtHome && e.waitEscape1Fails) = true
  · rw [if_pos c5] at h ⊢
    cases hbw : (provided && !fn) <;> simp [hbw, escalations, launches, ownedCloses, providedCloses, List.countP_append, List.countP_cons, List.countP_nil, List.countP_map, Ev.isEscalate, Ev.isLaunch, Ev.isOwnedClose, Ev.isProvidedClose, isEscalate_comp_writeFile, isLaunch_comp_writeFile, isOwnedClose_comp_writeFile, isProvidedClose_comp_writeFile, apply_ite (List.countP Ev.isEscalate), apply_ite (List.countP Ev.isLaunch), apply_ite (List.countP Ev.isOwnedClose), apply_ite (List.countP Ev.isProvidedClose)] <;> (try (intro a h1 x hx hxa; subst hxa; rfl))
  rw [if_neg c5] at h ⊢
  by_cases c6 : (!e.searchBoxFound) = true
  · rw [if_pos c6] at h ⊢
    cases hbw : (provided && !fn) <;> simp [hbw, escalations, launches, ownedCloses, providedCloses, List.countP_append, List.countP_cons, List.countP_nil, List.countP_map, Ev.isEscalate, Ev.isLaunch, Ev.isOwnedClose, Ev.isProvidedClose, isEscalate_comp_writeFile, isLaunch_comp_writeFile, isOwnedClose_comp_writeFile, isProvidedClose_comp_writeFile, apply_ite (List.countP Ev.isEscalate), apply_ite (List.countP Ev.isLaunch), apply_ite (List.countP Ev.isOwnedClose), apply_ite (List.countP Ev.isProvidedClose)] <;> (try (intro a h1 x hx hxa; subst hxa; rfl))
  rw [if_neg c6] at h ⊢
  by_cases c7 : e.loadStateFails = true
  · rw [if_pos c7] at h ⊢
    cases hbw : (provided && !fn) <;> simp [hbw, escalations, launches, ownedCloses, providedCloses, List.countP_append, List.countP_cons, List.countP_nil, List.countP_map, Ev.isEscalate, Ev.isLaunch, Ev.isOwnedClose, Ev.isProvidedClose, isEscalate_comp_writeFile, isLaunch_comp_writeFile, isOwnedClose_comp_writeFile, isProvidedClose_comp_writeFile, apply_ite (List.countP Ev.isEscalate), apply_ite (List.countP Ev.isLaunch), apply_ite (List.countP Ev.isOwnedClose), apply_ite (List.countP Ev.isProvidedClose)] <;> (try (intro a h1 x hx hxa; subst hxa; rfl))
  rw [if_neg c7] at h ⊢
  by_cases c8 : (e.blockedAfterSubmit && hl) = true
  · rw [if_pos c8] at h ⊢
    exact AttemptOut.noConfusion h.symm
  rw [if_neg c8] at h ⊢
  by_cases c9 : (e.blockedAfterSubmit && e.waitEscape2Fails) = true
  · rw [if_pos c9] at h ⊢
    cases hbw : (provided && !fn) <;> simp [hbw, escalations, launches, ownedCloses, providedCloses, List.countP_append, List.countP_cons, List.countP_nil, List.countP_map, Ev.isEscalate, Ev.isLaunch, Ev.isOwnedClose, Ev.isProvidedClose, isEscalate_comp_writeFile, isLaunch_comp_writeFile, isOwnedClose_comp_writeFile, isProvidedClose_comp_writeFile, apply_ite (List.countP Ev.isEscalate), apply_ite (List.countP Ev.isLaunch), apply_ite (List.countP Ev.isOwnedClose), apply_ite (List.countP Ev.isProvidedClose)] <;> (try (intro a h1 x hx hxa; subst hxa; rfl))
  rw [if_neg c9] at h ⊢
  by_cases c10 : (e.blockedAfterSubmit && e.loadState2Fails) = true
  · rw [if_pos c10] at h ⊢
    cases hbw : (provided && !fn) <;> simp [hbw, escalations, launches, ownedCloses, providedCloses, List.countP_append, List.countP_cons, List.countP_nil, List.countP_map, Ev.isEscalate, Ev.isLaunch, Ev.isOwnedClose, Ev.isProvidedClose, isEscalate_comp_writeFile, isLaunch_comp_writeFile, isOwnedClose_comp_writeFile, isProvidedClose_comp_writeFile, apply_ite (List.countP Ev.isEscalate), apply_ite (List.countP Ev.isLaunch), apply_ite (List.countP Ev.isOwnedClose), apply_ite (List.countP Ev.isProvidedClose)] <;> (try (intro a h1 x hx hxa; subst hxa; rfl))
  rw [if_neg c10] at h ⊢
  by_cases c11 : (!opts.noSaveState && (saveBrowserState e.save sf).2.isSome) = true
  · rw [if_pos c11] at h ⊢
    cases hbw : (provided && !fn) <;> simp [hbw, escalations, launches, ownedCloses, providedCloses, List.countP_append, List.countP_cons, List.countP_nil, List.countP_map, Ev.isEscalate, Ev.isLaunch, Ev.isOwnedClose, Ev.isProvidedClose, isEscalate_comp_writeFile, isLaunch_comp_writeFile, isOwnedClose_comp_writeFile, isProvidedClose_comp_writeFile, apply_ite (List.countP Ev.isEscalate), apply_ite (List.countP Ev.isLaunch), apply_ite (List.countP Ev.isOwnedClose), apply_ite (List.countP Ev.isProvidedClose)] <;> (try (intro a h1 x hx hxa; subst hxa; rfl))
  rw [if_neg c11] at h ⊢
  cases hbw : (provided && !fn) <;> simp [hbw, escalations, launches, ownedCloses, providedCloses, List.countP_append, List.countP_cons, List.countP_nil, List.countP_map, Ev.isEscalate, Ev.isLaunch, Ev.isOwnedClose, Ev.isProvidedClose, isEscalate_comp_writeFile, isLaunch_comp_writeFile, isOwnedClose_comp_writeFile, isProvidedClose_comp_writeFile, apply_ite (List.countP Ev.isEscalate), apply_ite (List.countP Ev.isLaunch), apply_ite (List.countP Ev.isOwnedClose), apply_ite (List.countP Ev.isProvidedClose)] <;> (try (intro a h1 x hx hxa; subst hxa; rfl))

theorem attempt_escalate_escalations (q : String) (opts : SearchOptions)
    (provided : Bool) (sf dom : String) (e : AttemptEnv) (fid : Nat) (hl fn : Bool)
    (h : (GS.attempt q opts provided sf dom e fid hl fn).1 = .escalate) :
    escalations (GS.attempt q opts provided sf dom e fid hl fn).2 = 1 := by
  unfold GS.attempt at h ⊢
  simp only [apply_ite Prod.fst] at h
  simp only [apply_ite Prod.snd, apply_ite escalations]
  by_cases c1 : (!(provided && !fn) && e.launchFails) = true
  · rw [if_pos c1] at h ⊢
    exact AttemptOut.noConfusion h
  rw [if_neg c1] at h ⊢
  by_cases c2 : e.sessionSetupFails = true
  · rw [if_pos c2] at h ⊢
    exact AttemptOut.noConfusion h
  rw [if_neg c2] at h ⊢
  by_cases c3 : e.gotoFails = true
  · rw [if_pos c3] at h ⊢
    exact AttemptOut.noConfusion h
  rw [if_neg c3] at h ⊢
  by_cases c4 : (e.blockedAtHome && hl) = true
  · rw [if_pos c4] at h ⊢
    cases hbw : (provided && !fn) <;> simp [hbw, escalations, launches, ownedCloses, providedCloses, List.countP_append, List.countP_cons, List.countP_nil, List.countP_map, Ev.isEscalate, Ev.isLaunch, Ev.isOwnedClose, Ev.isProvidedClose, isEscalate_comp_writeFile, isLaunch_comp_writeFile, isOwnedClose_comp_writeFile, isProvidedClose_comp_writeFile, apply_ite (List.countP Ev.isEscalate), apply_ite (List.countP Ev.isLaunch), apply_ite (List.countP Ev.isOwnedClose), apply_ite (List.countP Ev.isProvidedClose)] <;> (try (intro a h1 x hx hxa; subst hxa; rfl))
  rw [if_neg c4] at h ⊢
  by_cases c5 : (e.blockedAtHome && e.waitEscape1Fails) = true
  · rw [if_pos c5] at h ⊢
    exact AttemptOut.noConfusion h
  rw [if_neg c5] at h ⊢
  by_cases c6 : (!e.searchBoxFound) = true
  · rw [if_pos c6] at h ⊢
    exact AttemptOut.noConfusion h
  rw [if_neg c6] at h ⊢
  by_cases c7 : e.loadStateFails = true
  · rw [if_pos c7] at h ⊢
    exact AttemptOut.noConfusion h
  rw [if_neg c7] at h ⊢
  by_cases c8 : (e.blockedAfterSubmit && hl) = true
  · rw [if_pos c8] at h ⊢
    cases hbw : (provided && !fn) <;> simp [hbw, escalations, launches, ownedCloses, providedCloses, List.countP_append, List.countP_cons, List.countP_nil, List.countP_map, Ev.isEscalate, Ev.isLaunch, Ev.isOwnedClose, Ev.isProvidedClose, isEscalate_comp_writeFile, isLaunch_comp_writeFile, isOwnedClose_comp_writeFile, isProvidedClose_comp_writeFile, apply_ite (List.countP Ev.isEscalate), apply_ite (List.countP Ev.isLaunch), apply_ite (List.countP Ev.isOwnedClose), apply_ite (List.countP Ev.isProvidedClose)] <;> (try (intro a h1 x hx hxa; subst hxa; rfl))
  rw [if_neg c8] at h ⊢
  by_cases c9 : (e.blockedAfterSubmit && e.waitEscape2Fails) = true
  · rw [if_pos c9] at h ⊢
    exact AttemptOut.noConfusion h
  rw [if_neg c9] at h ⊢
  by_cases c10 : (e.blockedAfterSubmit && e.loadState2Fails) = true
  · rw [if_pos c10] at h ⊢
    exact AttemptOut.noConfusion h
  rw [if_neg c10] at h ⊢
  by_cases c11 : (!opts.noSaveState && (saveBrowserState e.save sf).2.isSome) = true
  · rw [if_pos c11] at h ⊢
    exact AttemptOut.noConfusion h
  rw [if_neg c11] at h ⊢
  exact AttemptOut.noConfusion h

theorem attempt_launches (q : String) (opts : SearchOptions) (provided : Bool)
    (sf dom : String) (e : AttemptEnv) (fid : Nat) (hl fn : Bool)
    (hL : e.launchFails = false) (hS : e.sessionSetupFails = false)
    (hD : opts.debug = false) :
    launches (GS.attempt q opts provided sf dom e fid hl fn).2 =
      (if provided && !fn then 0 else 1) := by
  unfold GS.attempt
  simp only [apply_ite Prod.snd, apply_ite launches]
  by_cases c1 : (!(provided && !fn) && e.launchFails) = true
  · rw [if_pos c1]
    simp [hL] at c1
  rw [if_neg c1]
  by_cases c2 : e.sessionSetupFails = true
  · rw [if_pos c2]
    exact absurd c2 (by simp [hS])
  rw [if_neg c2]
  by_cases c3 : e.gotoFails = true
  · rw [if_pos c3]
    cases hbw : (provided && !fn) <;> simp [hbw, hD, escalations, launches, ownedCloses, providedCloses, List.countP_append, List.countP_cons, List.countP_nil, List.countP_map, Ev.isEscalate, Ev.isLaunch, Ev.isOwnedClose, Ev.isProvidedClose, isEscalate_comp_writeFile, isLaunch_comp_writeFile, isOwnedClose_comp_writeFile, isProvidedClose_comp_writeFile, apply_ite (List.countP Ev.isEscalate), apply_ite (List.countP Ev.isLaunch), apply_ite (List.countP Ev.isOwnedClose), apply_ite (List.countP Ev.isProvidedClose)] <;> (try (intro a h1 x hx hxa; subst hxa; rfl))
  rw [if_neg c3]
  by_cases c4 : (e.blockedAtHome && hl) = true
  · rw [if_pos c4]
    cases hbw : (provided && !fn) <;> simp [hbw, hD, escalations, launches, ownedCloses, providedCloses, List.countP_append, List.countP_cons, List.countP_nil, List.countP_map, Ev.isEscalate, Ev.isLaunch, Ev.isOwnedClose, Ev.isProvidedClose, isEscalate_comp_writeFile, isLaunch_comp_writeFile, isOwnedClose_comp_writeFile, isProvidedClose_comp_writeFile, apply_ite (List.countP Ev.isEscalate), apply_ite (List.countP Ev.isLaunch), apply_ite (List.countP Ev.isOwnedClose), apply_ite (List.countP Ev.isProvidedClose)] <;> (try (intro a h1 x hx hxa; subst hxa; rfl))
  rw [if_neg c4]
  by_cases c5 : (e.blockedAtHome && e.waitEscape1Fails) = true
  · rw [if_pos c5]
    cases hbw : (provided && !fn) <;> simp [hbw, hD, escalations, launches, ownedCloses, providedCloses, List.countP_append, List.countP_cons, List.countP_nil, List.countP_map, Ev.isEscalate, Ev.isLaunch, Ev.isOwnedClose, Ev.isProvidedClose, isEscalate_comp_writeFile, isLaunch_comp_writeFile, isOwnedClose_comp_writeFile, isProvidedClose_comp_writeFile, apply_ite (List.countP Ev.isEscalate), apply_ite (List.countP Ev.isLaunch), apply_ite (List.countP Ev.isOwnedClose), apply_ite (List.countP Ev.isProvidedClose)] <;> (try (intro a h1 x hx hxa; subst hxa; rfl))
  rw [if_neg c5]
  by_cases c6 : (!e.searchBoxFound) = true
  · rw [if_pos c6]
    cases hbw : (provided && !fn) <;> simp [hbw, hD, escalations, launches, ownedCloses, providedCloses, List.countP_append, List.countP_cons, List.countP_nil, List.countP_map, Ev.isEscalate, Ev.isLaunch, Ev.isOwnedClose, Ev.isProvidedClose, isEscalate_comp_writeFile, isLaunch_comp_writeFile, isOwnedClose_comp_writeFile, isProvidedClose_comp_writeFile, apply_ite (List.countP Ev.isEscalate), apply_ite (List.countP Ev.isLaunch), apply_ite (List.countP Ev.isOwnedClose), apply_ite (List.countP Ev.isProvidedClose)] <;> (try (intro a h1 x hx hxa; subst hxa; rfl))
  rw [if_neg c6]
  by_cases c7 : e.loadStateFails = true
  · rw [if_pos c7]
    cases hbw : (provided && !fn) <;> simp [hbw, hD, escalations, launches, ownedCloses, providedCloses, List.countP_append, List.countP_cons, List.countP_nil, List.countP_map, Ev.isEscalate, Ev.isLaunch, Ev.isOwnedClose, Ev.isProvidedClose, isEscalate_comp_writeFile, isLaunch_comp_writeFile, isOwnedClose_comp_writeFile, isProvidedClose_comp_writeFile, apply_ite (List.countP Ev.isEscalate), apply_ite (List.countP Ev.isLaunch), apply_ite (List.countP Ev.isOwnedClose), apply_ite (List.countP Ev.isProvidedClose)] <;> (try (intro a h1 x hx hxa; subst hxa; rfl))
  rw [if_neg c7]
  by_cases c8 : (e.blockedAfterSubmit && hl) = true
  · rw [if_pos c8]
    cases hbw : (provided && !fn) <;> simp [hbw, hD, escalations, launches, ownedCloses, providedCloses, List.countP_append, List.countP_cons, List.countP_nil, List.countP_map, Ev.isEscalate, Ev.isLaunch, Ev.isOwnedClose, Ev.isProvidedClose, isEscalate_comp_writeFile, isLaunch_comp_writeFile, isOwnedClose_comp_writeFile, isProvidedClose_comp_writeFile, apply_ite (List.countP Ev.isEscalate), apply_ite (List.countP Ev.isLaunch), apply_ite (List.countP Ev.isOwnedClose), apply_ite (List.countP Ev.isProvidedClose)] <;> (try (intro a h1 x hx hxa; subst hxa; rfl))
  rw [if_neg c8]
  by_cases c9 : (e.blockedAfterSubmit && e.waitEscape2Fails) = true
  · rw [if_pos c9]
    cases hbw : (provided && !fn) <;> simp [hbw, hD, escalations, launches, ownedCloses, providedCloses, List.countP_append, List.countP_cons, List.countP_nil, List.countP_map, Ev.isEscalate, Ev.isLaunch, Ev.isOwnedClose, Ev.isProvidedClose, isEscalate_comp_writeFile, isLaunch_comp_writeFile, isOwnedClose_comp_writeFile, isProvidedClose_comp_writeFile, apply_ite (List.countP Ev.isEscalate), apply_ite (List.countP Ev.isLaunch), apply_ite (List.countP Ev.isOwnedClose), apply_ite (List.countP Ev.isProvidedClose)] <;> (try (intro a h1 x hx hxa; subst hxa; rfl))
  rw [if_neg c9]
  by_cases c10 : (e.blockedAfterSubmit && e.loadState2Fails) = true
  · rw [if_pos c10]
    cases hbw : (provided && !fn) <;> simp [hbw, hD, escalations, launches, ownedCloses, providedCloses, List.countP_append, List.countP_cons, List.countP_nil, List.countP_map, Ev.isEscalate, Ev.isLaunch, Ev.isOwnedClose, Ev.isProvidedClose, isEscalate_comp_writeFile, isLaunch_comp_writeFile, isOwnedClose_comp_writeFile, isProvidedClose_comp_writeFile, apply_ite (List.countP Ev.isEscalate), apply_ite (List.countP Ev.isLaunch), apply_ite (List.countP Ev.isOwnedClose), apply_ite (List.countP Ev.isProvidedClose)] <;> (try (intro a h1 x hx hxa; subst hxa; rfl))
  rw [if_neg c10]
  by_cases c11 : (!opts.noSaveState && (saveBrowserState e.save sf).2.isSome) = true
  · rw [if_pos c11]
    cases hbw : (provided && !fn) <;> simp [hbw, hD, escalations, launches, ownedCloses, providedCloses, List.countP_append, List.countP_cons, List.countP_nil, List.countP_map, Ev.isEscalate, Ev.isLaunch, Ev.isOwnedClose, Ev.isProvidedClose, isEscalate_comp_writeFile, isLaunch_comp_writeFile, isOwnedClose_comp_writeFile, isProvidedClose_comp_writeFile, apply_ite (List.countP Ev.isEscalate), apply_ite (List.countP Ev.isLaunch), apply_ite (List.countP Ev.isOwnedClose), apply_ite (List.countP Ev.isProvidedClose)] <;> (try (intro a h1 x hx hxa; subst hxa; rfl))
  rw [if_neg c11]
  cases hbw : (provided && !fn) <;> simp [hbw, hD, escalations, launches, ownedCloses, providedCloses, List.countP_append, List.countP_cons, List.countP_nil, List.countP_map, Ev.isEscalate, Ev.isLaunch, Ev.isOwnedClose, Ev.isProvidedClose, isEscalate_comp_writeFile, isLaunch_comp_writeFile, isOwnedClose_comp_writeFile, isProvidedClose_comp_writeFile, apply_ite (List.countP Ev.isEscalate), apply_ite (List.countP Ev.isLaunch), apply_ite (List.countP Ev.isOwnedClose), apply_ite (List.countP Ev.isProvidedClose)] <;> (try (intro a h1 x hx hxa; subst hxa; rfl))

theorem attempt_ownedCloses (q : String) (opts : SearchOptions) (provided : Bool)
    (sf dom : String) (e : AttemptEnv) (fid : Nat) (hl fn : Bool)
    (hL : e.launchFails = false) (hS : e.sessionSetupFails = false)
    (hD : opts.debug = false) :
    ownedCloses (GS.attempt q opts provided sf dom e fid hl fn).2 =
      (if provided && !fn then 0 else 1) := by
  unfold GS.attempt
  simp only [apply_ite Prod.snd, apply_ite ownedCloses]
  by_cases c1 : (!(provided && !fn) && e.launchFails) = true
  · rw [if_pos c1]
    simp [hL] at c1
  rw [if_neg c1]
  by_cases c2 : e.sessionSetupFails = true
  · rw [if_pos c2]
    exact absurd c2 (by simp [hS])
  rw [if_neg c2]
  by_cases c3 : e.gotoFails = true
  · rw [if_pos c3]
    cases hbw : (provided && !fn) <;> simp [hbw, hD, escalations, launches, ownedCloses, providedCloses, List.countP_append, List.countP_cons, List.countP_nil, List.countP_map, Ev.isEscalate, Ev.isLaunch, Ev.isOwnedClose, Ev.isProvidedClose, isEscalate_comp_writeFile, isLaunch_comp_writeFile, isOwnedClose_comp_writeFile, isProvidedClose_comp_writeFile, apply_ite (List.countP Ev.isEscalate), apply_ite (List.countP Ev.isLaunch), apply_ite (List.countP Ev.isOwnedClose), apply_ite (List.countP Ev.isProvidedClose)] <;> (try (intro a h1 x hx hxa; subst hxa; rfl))
  rw [if_neg c3]
  by_cases c4 : (e.blockedAtHome && hl) = true
  · rw [if_pos c4]
    cases hbw : (provided && !fn) <;> simp [hbw, hD, escalations, launches, ownedCloses, providedCloses, List.countP_append, List.countP_cons, List.countP_nil, List.countP_map, Ev.isEscalate, Ev.isLaunch, Ev.isOwnedClose, Ev.isProvidedClose, isEscalate_comp_writeFile, isLaunch_comp_writeFile, isOwnedClose_comp_writeFile, isProvidedClose_comp_writeFile, apply_ite (List.countP Ev.isEscalate), apply_ite (List.countP Ev.isLaunch), apply_ite (List.countP Ev.isOwnedClose), apply_ite (List.countP Ev.isProvidedClose)] <;> (try (intro a h1 x hx hxa; subst hxa; rfl))
  rw [if_neg c4]
  by_cases c5 : (e.blockedAtHome && e.waitEscape1Fails) = true
  · rw [if_pos c5]
    cases hbw : (provided && !fn) <;> simp [hbw, hD, escalations, launches, ownedCloses, providedCloses, List.countP_append, List.countP_cons, List.countP_nil, List.countP_map, Ev.isEscalate, Ev.isLaunch, Ev.isOwnedClose, Ev.isProvidedClose, isEscalate_comp_writeFile, isLaunch_comp_writeFile, isOwnedClose_comp_writeFile, isProvidedClose_comp_writeFile, apply_ite (List.countP Ev.isEscalate), apply_ite (List.countP Ev.isLaunch), apply_ite (List.countP Ev.isOwnedClose), apply_ite (List.countP Ev.isProvidedClose)] <;> (try (intro a h1 x hx hxa; subst hxa; rfl))
  rw [if_neg c5]
  by_cases c6 : (!e.searchBoxFound) = true
  · rw [if_pos c6]
    cases hbw : (provided && !fn) <;> simp [hbw, hD, escalations, launches, ownedCloses, providedCloses, List.countP_append, List.countP_cons, List.countP_nil, List.countP_map, Ev.isEscalate, Ev.isLaunch, Ev.isOwnedClose, Ev.isProvidedClose, isEscalate_comp_writeFile, isLaunch_comp_writeFile, isOwnedClose_comp_writeFile, isProvidedClose_comp_writeFile, apply_ite (List.countP Ev.isEscalate), apply_ite (List.countP Ev.isLaunch), apply_ite (List.countP Ev.isOwnedClose), apply_ite (List.countP Ev.isProvidedClose)] <;> (try (intro a h1 x hx hxa; subst hxa; rfl))
  rw [if_neg c6]
  by_cases c7 : e.loadStateFails = true
  · rw [if_pos c7]
    cases hbw : (provided && !fn) <;> simp [hbw, hD, escalations, launches, ownedCloses, providedCloses, List.countP_append, List.countP_cons, List.countP_nil, List.countP_map, Ev.isEscalate, Ev.isLaunch, Ev.isOwnedClose, Ev.isProvidedClose, isEscalate_comp_writeFile, isLaunch_comp_writeFile, isOwnedClose_comp_writeFile, isProvidedClose_comp_writeFile, apply_ite (List.countP Ev.isEscalate), apply_ite (List.countP Ev.isLaunch), apply_ite (List.countP Ev.isOwnedClose), apply_ite (List.countP Ev.isProvidedClose)] <;> (try (intro a h1 x hx hxa; subst hxa; rfl))
  rw [if_neg c7]
  by_cases c8 : (e.blockedAfterSubmit && hl) = true
  · rw [if_pos c8]
    cases hbw : (provided && !fn) <;> simp [hbw, hD, escalations, launches, ownedCloses, providedCloses, List.countP_append, List.countP_cons, List.countP_nil, List.countP_map, Ev.isEscalate, Ev.isLaunch, Ev.isOwnedClose, Ev.isProvidedClose, isEscalate_comp_writeFile, isLaunch_comp_writeFile, isOwnedClose_comp_writeFile, isProvidedClose_comp_writeFile, apply_ite (List.countP Ev.isEscalate), apply_ite (List.countP Ev.isLaunch), apply_ite (List.countP Ev.isOwnedClose), apply_ite (List.countP Ev.isProvidedClose)] <;> (try (intro a h1 x hx hxa; subst hxa; rfl))
  rw [if_neg c8]
  by_cases c9 : (e.blockedAfterSubmit && e.waitEscape2Fails) = true
  · rw [if_pos c9]
    cases hbw : (provided && !fn) <;> simp [hbw, hD, escalations, launches, ownedCloses, providedCloses, List.countP_append, List.countP_cons, List.countP_nil, List.countP_map, Ev.isEscalate, Ev.isLaunch, Ev.isOwnedClose, Ev.isProvidedClose, isEscalate_comp_writeFile, isLaunch_comp_writeFile, isOwnedClose_comp_writeFile, isProvidedClose_comp_writeFile, apply_ite (List.countP Ev.isEscalate), apply_ite (List.countP Ev.isLaunch), apply_ite (List.countP Ev.isOwnedClose), apply_ite (List.countP Ev.isProvidedClose)] <;> (try (intro a h1 x hx hxa; subst hxa; rfl))
  rw [if_neg c9]
  by_cases c10 : (e.blockedAfterSubmit && e.loadState2Fails) = true
  · rw [if_pos c10]
    cases hbw : (provided && !fn) <;> simp [hbw, hD, escalations, launches, ownedCloses, providedCloses, List.countP_append, List.countP_cons, List.countP_nil, List.countP_map, Ev.isEscalate, Ev.isLaunch, Ev.isOwnedClose, Ev.isProvidedClose, isEscalate_comp_writeFile, isLaunch_comp_writeFile, isOwnedClose_comp_writeFile, isProvidedClose_comp_writeFile, apply_ite (List.countP Ev.isEscalate), apply_ite (List.countP Ev.isLaunch), apply_ite (List.countP Ev.isOwnedClose), apply_ite (List.countP Ev.isProvidedClose)] <;> (try (intro a h1 x hx hxa; subst hxa; rfl))
  rw [if_neg c10]
  by_cases c11 : (!opts.noSaveState && (saveBrowserState e.save sf).2.isSome) = true
  · rw [if_pos c11]
    cases hbw : (provided && !fn) <;> simp [hbw, hD, escalations, launches, ownedCloses, providedCloses, List.countP_append, List.countP_cons, List.countP_nil, List.countP_map, Ev.isEscalate, Ev.isLaunch, Ev.isOwnedClose, Ev.isProvidedClose, isEscalate_comp_writeFile, isLaunch_comp_writeFile, isOwnedClose_comp_writeFile, isProvidedClose_comp_writeFile, apply_ite (List.countP Ev.isEscalate), apply_ite (List.countP Ev.isLaunch), apply_ite (List.countP Ev.isOwnedClose), apply_ite (List.countP Ev.isProvidedClose)] <;> (try (intro a h1 x hx hxa; subst hxa; rfl))
  rw [if_neg c11]
  cases hbw : (provided && !fn) <;> simp [hbw, hD, escalations, launches, ownedCloses, providedCloses, List.countP_append, List.countP_cons, List.countP_nil, List.countP_map, Ev.isEscalate, Ev.isLaunch, Ev.isOwnedClose, Ev.isProvidedClose, isEscalate_comp_writeFile, isLaunch_comp_writeFile, isOwnedClose_comp_writeFile, isProvidedClose_comp_writeFile, apply_ite (List.countP Ev.isEscalate), apply_ite (List.countP Ev.isLaunch), apply_ite (List.countP Ev.isOwnedClose), apply_ite (List.countP Ev.isProvidedClose)] <;> (try (intro a h1 x hx hxa; subst hxa; rfl))

theorem attempt_providedCloses (q : String) (opts : SearchOptions)
    (provided : Bool) (sf dom : String) (e : AttemptEnv) (fid : Nat) (hl fn : Bool) :
    providedCloses (GS.attempt q opts provided sf dom e fid hl fn).2 = 0 := by
  unfold GS.attempt
  simp only [apply_ite Prod.snd, apply_ite providedCloses]
  by_cases c1 : (!(provided && !fn) && e.launchFails) = true
  · rw [if_pos c1]
    cases hbw : (provided && !fn) <;> simp [hbw, escalations, launches, ownedCloses, providedCloses, List.countP_append, List.countP_cons, List.countP_nil, List.countP_map, Ev.isEscalate, Ev.isLaunch, Ev.isOwnedClose, Ev.isProvidedClose, isEscalate_comp_writeFile, isLaunch_comp_writeFile, isOwnedClose_comp_writeFile, isProvidedClose_comp_writeFile, apply_ite (List.countP Ev.isEscalate), apply_ite (List.countP Ev.isLaunch), apply_ite (List.countP Ev.isOwnedClose), apply_ite (List.countP Ev.isProvidedClose)] <;> (try (intro a h1 x hx hxa; subst hxa; rfl))
  rw [if_neg c1]
  by_cases c2 : e.sessionSetupFails = true
  · rw [if_pos c2]
    cases hbw : (provided && !fn) <;> simp [hbw, escalations, launches, ownedCloses, providedCloses, List.countP_append, List.countP_cons, List.countP_nil, List.countP_map, Ev.isEscalate, Ev.isLaunch, Ev.isOwnedClose, Ev.isProvidedClose, isEscalate_comp_writeFile, isLaunch_comp_writeFile, isOwnedClose_comp_writeFile, isProvidedClose_comp_writeFile, apply_ite (List.countP Ev.isEscalate), apply_ite (List.countP Ev.isLaunch), apply_ite (List.countP Ev.isOwnedClose), apply_ite (List.countP Ev.isProvidedClose)] <;> (try (intro a h1 x hx hxa; subst hxa; rfl))
  rw [if_neg c2]
  by_cases c3 : e.gotoFails = true
  · rw [if_pos c3]
    cases hbw : (provided && !fn) <;> simp [hbw, escalations, launches, ownedCloses, providedCloses, List.countP_append, List.countP_cons, List.countP_nil, List.countP_map, Ev.isEscalate, Ev.isLaunch, Ev.isOwnedClose, Ev.isProvidedClose, isEscalate_comp_writeFile, isLaunch_comp_writeFile, isOwnedClose_comp_writeFile, isProvidedClose_comp_writeFile, apply_ite (List.countP Ev.isEscalate), apply_ite (List.countP Ev.isLaunch), apply_ite (List.countP Ev.isOwnedClose), apply_ite (List.countP Ev.isProvidedClose)] <;> (try (intro a h1 x hx hxa; subst hxa; rfl))
  rw [if_neg c3]
  by_cases c4 : (e.blockedAtHome && hl) = true
  · rw [if_pos c4]
    cases hbw : (provided && !fn) <;> simp [hbw, escalations, launches, ownedCloses, providedCloses, List.countP_append, List.countP_cons, List.countP_nil, List.countP_map, Ev.isEscalate, Ev.isLaunch, Ev.isOwnedClose, Ev.isProvidedClose, isEscalate_comp_writeFile, isLaunch_comp_writeFile, isOwnedClose_comp_writeFile, isProvidedClose_comp_writeFile, apply_ite (List.countP Ev.isEscalate), apply_ite (List.countP Ev.isLaunch), apply_ite (List.countP Ev.isOwnedClose), apply_ite (List.countP Ev.isProvidedClose)] <;> (try (intro a h1 x hx hxa; subst hxa; rfl))
  rw [if_neg c4]
  by_cases c5 : (e.blockedAtHome && e.waitEscape1Fails) = true
  · rw [if_pos c5]
    cases hbw : (provided && !fn) <;> simp [hbw, escalations, launches, ownedCloses, providedCloses, List.countP_append, List.countP_cons, List.countP_nil, List.countP_map, Ev.isEscalate, Ev.isLaunch, Ev.isOwnedClose, Ev.isProvidedClose, isEscalate_comp_writeFile, isLaunch_comp_writeFile, isOwnedClose_comp_writeFile, isProvidedClose_comp_writeFile, apply_ite (List.countP Ev.isEscalate), apply_ite (List.countP Ev.isLaunch), apply_ite (List.countP Ev.isOwnedClose), apply_ite (List.countP Ev.isProvidedClose)] <;> (try (intro a h1 x hx hxa; subst hxa; rfl))
  rw [if_neg c5]
  by_cases c6 : (!e.searchBoxFound) = true
  · rw [if_pos c6]
    cases hbw : (provided && !fn) <;> simp [hbw, escalations, launches, ownedCloses, providedCloses, List.countP_append, List.countP_cons, List.countP_nil, List.countP_map, Ev.isEscalate, Ev.isLaunch, Ev.isOwnedClose, Ev.isProvidedClose, isEscalate_comp_writeFile, isLaunch_comp_writeFile, isOwnedClose_comp_writeFile, isProvidedClose_comp_writeFile, apply_ite (List.countP Ev.isEscalate), apply_ite (List.countP Ev.isLaunch), apply_ite (List.countP Ev.isOwnedClose), apply_ite (List.countP Ev.isProvidedClose)] <;> (try (intro a h1 x hx hxa; subst hxa; rfl))
  rw [if_neg c6]
  by_cases c7 : e.loadStateFails = true
  · rw [if_pos c7]
    cases hbw : (provided && !fn) <;> simp [hbw, escalations, launches, ownedCloses, providedCloses, List.countP_append, List.countP_cons, List.countP_nil, List.countP_map, Ev.isEscalate, Ev.isLaunch, Ev.isOwnedClose, Ev.isProvidedClose, isEscalate_comp_writeFile, isLaunch_comp_writeFile, isOwnedClose_comp_writeFile, isProvidedClose_comp_writeFile, apply_ite (List.countP Ev.isEscalate), apply_ite (List.countP Ev.isLaunch), apply_ite (List.countP Ev.isOwnedClose), apply_ite (List.countP Ev.isProvidedClose)] <;> (try (intro a h1 x hx hxa; subst hxa; rfl))
  rw [if_neg c7]
  by_cases c8 : (e.blockedAfterSubmit && hl) = true
  · rw [if_pos c8]
    cases hbw : (provided && !fn) <;> simp [hbw, escalations, launches, ownedCloses, providedCloses, List.countP_append, List.countP_cons, List.countP_nil, List.countP_map, Ev.isEscalate, Ev.isLaunch, Ev.isOwnedClose, Ev.isProvidedClose, isEscalate_comp_writeFile, isLaunch_comp_writeFile, isOwnedClose_comp_writeFile, isProvidedClose_comp_writeFile, apply_ite (List.countP Ev.isEscalate), apply_ite (List.countP Ev.isLaunch), apply_ite (List.countP Ev.isOwnedClose), apply_ite (List.countP Ev.isProvidedClose)] <;> (try (intro a h1 x hx hxa; subst hxa; rfl))
  rw [if_neg c8]
  by_cases c9 : (e.blockedAfterSubmit && e.waitEscape2Fails) = true
  · rw [if_pos c9]
    cases hbw : (provided && !fn) <;> simp [hbw, escalations, launches, ownedCloses, providedCloses, List.countP_append, List.countP_cons, List.countP_nil, List.countP_map, Ev.isEscalate, Ev.isLaunch, Ev.isOwnedClose, Ev.isProvidedClose, isEscalate_comp_writeFile, isLaunch_comp_writeFile, isOwnedClose_comp_writeFile, isProvidedClose_comp_writeFile, apply_ite (List.countP Ev.isEscalate), apply_ite (List.countP Ev.isLaunch), apply_ite (List.countP Ev.isOwnedClose), apply_ite (List.countP Ev.isProvidedClose)] <;> (try (intro a h1 x hx hxa; subst hxa; rfl))
  rw [if_neg c9]
  by_cases c10 : (e.blockedAfterSubmit && e.loadState2Fails) = true
  · rw [if_pos c10]
    cases hbw : (provided && !fn) <;> simp [hbw, escalations, launches, ownedCloses, providedCloses, List.countP_append, List.countP_cons, List.countP_nil, List.countP_map, Ev.isEscalate, Ev.isLaunch, Ev.isOwnedClose, Ev.isProvidedClose, isEscalate_comp_writeFile, isLaunch_comp_writeFile, isOwnedClose_comp_writeFile, isProvidedClose_comp_writeFile, apply_ite (List.countP Ev.isEscalate), apply_ite (List.countP Ev.isLaunch), apply_ite (List.countP Ev.isOwnedClose), apply_ite (List.countP Ev.isProvidedClose)] <;> (try (intro a h1 x hx hxa; subst hxa; rfl))
  rw [if_neg c10]
  by_cases c11 : (!opts.noSaveState && (saveBrowserState e.save sf).2.isSome) = true
  · rw [if_pos c11]
    cases hbw : (provided && !fn) <;> simp [hbw, escalations, launches, ownedCloses, providedCloses, List.countP_append, List.countP_cons, List.countP_nil, List.countP_map, Ev.isEscalate, Ev.isLaunch, Ev.isOwnedClose, Ev.isProvidedClose, isEscalate_comp_writeFile, isLaunch_comp_writeFile, isOwnedClose_comp_writeFile, isProvidedClose_comp_writeFile, apply_ite (List.countP Ev.isEscalate), apply_ite (List.countP Ev.isLaunch), apply_ite (List.countP Ev.isOwnedClose), apply_ite (List.countP Ev.isProvidedClose)] <;> (try (intro a h1 x hx hxa; subst hxa; rfl))
  rw [if_neg c11]
  cases hbw : (provided && !fn) <;> simp [hbw, escalations, launches, ownedCloses, providedCloses, List.countP_append, List.countP_cons, List.countP_nil, List.countP_map, Ev.isEscalate, Ev.isLaunch, Ev.isOwnedClose, Ev.isProvidedClose, isEscalate_comp_writeFile, isLaunch_comp_writeFile, isOwnedClose_comp_writeFile, isProvidedClose_comp_writeFile, apply_ite (List.countP Ev.isEscalate), apply_ite (List.countP Ev.isLaunch), apply_ite (List.countP Ev.isOwnedClose), apply_ite (List.countP Ev.isProvidedClose)] <;> (try (intro a h1 x hx hxa; subst hxa; rfl))


/-! ### Counter distribution over appended traces -/

theorem escalations_append (a b : List Ev) :
    escalations (a ++ b) = escalations a + escalations b :=
  List.countP_append _ _ _

theorem launches_append (a b : List Ev) :
    launches (a ++ b) = launches a + launches b :=
  List.countP_append _ _ _

theorem ownedCloses_append (a b : List Ev) :
    ownedCloses (a ++ b) = ownedCloses a + ownedCloses b :=
  List.countP_append _ _ _

theorem providedCloses_append (a b : List Ev) :
    providedCloses (a ++ b) = providedCloses a + providedCloses b :=
  List.countP_append _ _ _

/-! ### From one attempt to performSearch -/

theorem performSearchVisible_spec (q : String) (opts : SearchOptions)
    (provided : Bool) (sf dom : String) (e : AttemptEnv) (fn : Bool) (fid : Nat) :
    ∃ r evs, GS.attempt q opts provided sf dom e fid false fn = (.finished r, evs) ∧
      GS.performSearchVisible q opts provided sf dom e fn fid = (r, evs) := by
  rcases hA : GS.attempt q opts provided sf dom e fid false fn with ⟨out, tr⟩
  cases out with
  | finished r => exact ⟨r, tr, rfl, by simp [GS.performSearchVisible, hA]⟩
  | escalate =>
    have hfalse : (false : Bool) = true :=
      attempt_escalate_hl q opts provided sf dom e fid false fn (by rw [hA])
    cases hfalse

theorem attempt_escalates_when_blocked (q : String) (opts : SearchOptions)
    (provided : Bool) (sf dom : String) (e : AttemptEnv) (fid : Nat) (fn : Bool)
    (hL : e.launchFails = false) (hS : e.sessionSetupFails = false)
    (hG : e.gotoFails = false) (hB : e.blockedAtHome = true) :
    (GS.attempt q opts provided sf dom e fid true fn).1 = .escalate := by
  unfold GS.attempt
  simp only [apply_ite Prod.fst]
  rw [if_neg (by simp [hL]), if_neg (by simp [hS]), if_neg (by simp [hG]),
    if_pos (by simp [hB])]

theorem performSearch_ok_shape (q : String) (opts : SearchOptions) (provided : Bool)
    (sf dom : String) (env : Bool → AttemptEnv) (hl fn : Bool) (fid : Nat)
    (r : SearchResponse)
    (h : (GS.performSearch q opts provided sf dom env hl fn fid).1 = .ok r) :
    (∃ m, r = syntheticFailure q m) ∨
      ∃ b, r = { query := q, results := runExtraction (env b).page opts.limit } := by
  unfold GS.performSearch at h
  cases hl with
  | false =>
    rw [if_neg (by simp)] at h
    obtain ⟨r0, evs, hAtt, hPSV⟩ :=
      performSearchVisible_spec q opts provided sf dom (env false) fn fid
    rw [hPSV] at h
    simp only at h
    subst h
    rcases attempt_ok_shape q opts provided sf dom (env false) fid false fn r
        (by rw [hAtt]) with hsyn | hext
    · exact Or.inl hsyn
    · exact Or.inr ⟨false, hext⟩
  | true =>
    rw [if_pos rfl] at h
    rcases hA : GS.attempt q opts provided sf dom (env true) fid true fn with ⟨out, tr⟩
    rw [hA] at h
    cases out with
    | finished r0 =>
      simp only at h
      subst h
      rcases attempt_ok_shape q opts provided sf dom (env true) fid true fn r
          (by rw [hA]) with hsyn | hext
      · exact Or.inl hsyn
      · exact Or.inr ⟨true, hext⟩
    | escalate =>
      simp only at h
      obtain ⟨r2, evs2, hAtt2, hPSV2⟩ :=
        performSearchVisible_spec q opts provided sf dom (env false)
          (provided && !fn) (fid + 1)
      rw [hPSV2] at h
      cases r2 with
      | ok resp =>
        simp only at h
        injection h with h
        subst h
        rcases attempt_ok_shape q opts provided sf dom (env false) (fid + 1) false
            (provided && !fn) resp (by rw [hAtt2]) with hsyn | hext
        · exact Or.inl hsyn
        · exact Or.inr ⟨false, hext⟩
      | error msg =>
        simp only at h
        injection h with h
        exact Or.inl ⟨msg, h.symm⟩

theorem performSearch_isOk (q : String) (opts : SearchOptions) (provided : Bool)
    (sf dom : String) (env : Bool → AttemptEnv) (hl fn : Bool) (fid : Nat)
    (hL : ∀ b, (env b).launchFails = false)
    (hS : ∀ b, (env b).sessionSetupFails = false) :
    ∃ resp, (GS.performSearch q opts provided sf dom env hl fn fid).1 = .ok resp := by
  unfold GS.performSearch
  cases hl with
  | false =>
    rw [if_neg (by simp)]
    obtain ⟨r0, evs, hAtt, hPSV⟩ :=
      performSearchVisible_spec q opts provided sf dom (env false) fn fid
    rw [hPSV]
    cases r0 with
    | ok resp => exact ⟨resp, rfl⟩
    | error m =>
      rcases attempt_error_shape q opts provided sf dom (env false) fid false fn m
          (by rw [hAtt]) with hc | hc
      · rw [hL false] at hc
        cases hc
      · rw [hS false] at hc
        cases hc
  | true =>
    rw [if_pos rfl]
    rcases hA : GS.attempt q opts provided sf dom (env true) fid true fn with ⟨out, tr⟩
    cases out with
    | finished r0 =>
      cases r0 with
      | ok resp => exact ⟨resp, rfl⟩
      | error m =>
        rcases attempt_error_shape q opts provided sf dom (env true) fid true fn m
            (by rw [hA]) with hc | hc
        · rw [hL true] at hc
          cases hc
        · rw [hS true] at hc
          cases hc
    | escalate =>
      simp only
      obtain ⟨r2, evs2, hAtt2, hPSV2⟩ :=
        performSearchVisible_spec q opts provided sf dom (env false)
          (provided && !fn) (fid + 1)
      rw [hPSV2]
      cases r2 with
      | ok resp => exact ⟨resp, rfl⟩
      | error msg => exact ⟨syntheticFailure q msg, rfl⟩


theorem performSearch_escalations_visible (q : String) (opts : SearchOptions)
    (provided : Bool) (sf dom : String) (env : Bool → AttemptEnv) (fn : Bool)
    (fid : Nat) :
    escalations (GS.performSearch q opts provided sf dom env false fn fid).2 = 0 := by
  unfold GS.performSearch
  rw [if_neg (by simp)]
  obtain ⟨r0, evs, hAtt, hPSV⟩ :=
    performSearchVisible_spec q opts provided sf dom (env false) fn fid
  rw [hPSV]
  have h0 := attempt_finished_escalations q opts provided sf dom (env false) fid
    false fn r0 (by rw [hAtt])
  rw [hAtt] at h0
  simpa using h0

theorem performSearch_escalations_le (q : String) (opts : SearchOptions)
    (provided : Bool) (sf dom : String) (env : Bool → AttemptEnv) (hl fn : Bool)
    (fid : Nat) :
    escalations (GS.performSearch q opts provided sf dom env hl fn fid).2 ≤ 1 := by
  cases hl with
  | false =>
    rw [performSearch_escalations_visible]
    omega
  | true =>
    unfold GS.performSearch
    rw [if_pos rfl]
    rcases hA : GS.attempt q opts provided sf dom (env true) fid true fn with ⟨out, tr⟩
    cases out with
    | finished r0 =>
      have h0 := attempt_finished_escalations q opts provided sf dom (env true) fid
        true fn r0 (by rw [hA])
      rw [hA] at h0
      simp only at h0
      simp [h0]
    | escalate =>
      simp only
      obtain ⟨r2, evs2, hAtt2, hPSV2⟩ :=
        performSearchVisible_spec q opts provided sf dom (env false)
          (provided && !fn) (fid + 1)
      rw [hPSV2]
      have h1 := attempt_escalate_escalations q opts provided sf dom (env true) fid
        true fn (by rw [hA])
      rw [hA] at h1
      simp only at h1
      have h2 := attempt_finished_escalations q opts provided sf dom (env false)
        (fid + 1) false (provided && !fn) r2 (by rw [hAtt2])
      rw [hAtt2] at h2
      simp only at h2
      cases r2 with
      | ok resp => simp [escalations_append, h1, h2]
      | error msg =>
        simp only
        rw [escalations_append, escalations_append, h1, h2]
        cases hbw : (provided && !fn) <;>
          simp [hbw, escalations, List.countP_cons, List.countP_nil,
            Ev.isEscalate, apply_ite (List.countP Ev.isEscalate)]

theorem performSearch_escalations_blocked (q : String) (opts : SearchOptions)
    (provided : Bool) (sf dom : String) (env : Bool → AttemptEnv) (fn : Bool)
    (fid : Nat)
    (hL : (env true).launchFails = false) (hS : (env true).sessionSetupFails = false)
    (hG : (env true).gotoFails = false) (hB : (env true).blockedAtHome = true) :
    escalations (GS.performSearch q opts provided sf dom env true fn fid).2 = 1 := by
  unfold GS.performSearch
  rw [if_pos rfl]
  have hesc := attempt_escalates_when_blocked q opts provided sf dom (env true) fid fn
    hL hS hG hB
  rcases hA : GS.attempt q opts provided sf dom (env true) fid true fn with ⟨out, tr⟩
  rw [hA] at hesc
  simp only at hesc
  cases out with
  | finished r0 => exact AttemptOut.noConfusion hesc
  | escalate =>
    simp only
    obtain ⟨r2, evs2, hAtt2, hPSV2⟩ :=
      performSearchVisible_spec q opts provided sf dom (env false)
        (provided && !fn) (fid + 1)
    rw [hPSV2]
    have h1 := attempt_escalate_escalations q opts provided sf dom (env true) fid
      true fn (by rw [hA])
    rw [hA] at h1
    simp only at h1
    have h2 := attempt_finished_escalations q opts provided sf dom (env false)
      (fid + 1) false (provided && !fn) r2 (by rw [hAtt2])
    rw [hAtt2] at h2
    simp only at h2
    cases r2 with
    | ok resp => simp [escalations_append, h1, h2]
    | error msg =>
      simp only
      rw [escalations_append, escalations_append, h1, h2]
      cases hbw : (provided && !fn) <;>
        simp [hbw, escalations, List.countP_cons, List.countP_nil,
          Ev.isEscalate, apply_ite (List.countP Ev.isEscalate)]

theorem performSearch_balance (q : String) (opts : SearchOptions) (provided : Bool)
    (sf dom : String) (env : Bool → AttemptEnv) (hl fn : Bool) (fid : Nat)
    (hL : ∀ b, (env b).launchFails = false)
    (hS : ∀ b, (env b).sessionSetupFails = false)
    (hD : opts.debug = false) :
    launches (GS.performSearch q opts provided sf dom env hl fn fid).2 =
      ownedCloses (GS.performSearch q opts provided sf dom env hl fn fid).2 := by
  cases hl with
  | false =>
    unfold GS.performSearch
    rw [if_neg (by simp)]
    obtain ⟨r0, evs, hAtt, hPSV⟩ :=
      performSearchVisible_spec q opts provided sf dom (env false) fn fid
    rw [hPSV]
    have h1 := attempt_launches q opts provided sf dom (env false) fid false fn
      (hL false) (hS false) hD
    have h2 := attempt_ownedCloses q opts provided sf dom (env false) fid false fn
      (hL false) (hS false) hD
    rw [hAtt] at h1 h2
    simp only at h1 h2
    rw [h1, h2]
  | true =>
    unfold GS.performSearch
    rw [if_pos rfl]
    rcases hA : GS.attempt q opts provided sf dom (env true) fid true fn with ⟨out, tr⟩
    have h1 := attempt_launches q opts provided sf dom (env true) fid true fn
      (hL true) (hS true) hD
    have h2 := attempt_ownedCloses q opts provided sf dom (env true) fid true fn
      (hL true) (hS true) hD
    rw [hA] at h1 h2
    simp only at h1 h2
    cases out with
    | finished r0 => rw [h1, h2]
    | escalate =>
      simp only
      obtain ⟨r2, evs2, hAtt2, hPSV2⟩ :=
        performSearchVisible_spec q opts provided sf dom (env false)
          (provided && !fn) (fid + 1)
      rw [hPSV2]
      have h3 := attempt_launches q opts provided sf dom (env false) (fid + 1) false
        (provided && !fn) (hL false) (hS false) hD
      have h4 := attempt_ownedCloses q opts provided sf dom (env false) (fid + 1) false
        (provided && !fn) (hL false) (hS false) hD
      rw [hAtt2] at h3 h4
      simp only at h3 h4
      cases r2 with
      | ok resp => simp [launches_append, ownedCloses_append, h1, h2, h3, h4]
      | error msg =>
        rcases attempt_error_shape q opts provided sf dom (env false) (fid + 1) false
            (provided && !fn) msg (by rw [hAtt2]) with hc | hc
        · rw [hL false] at hc
          cases hc
        · rw [hS false] at hc
          cases hc

theorem performSearch_providedCloses (q : String) (opts : SearchOptions)
    (provided : Bool) (sf dom : String) (env : Bool → AttemptEnv) (hl fn : Bool)
    (fid : Nat) :
    providedCloses (GS.performSearch q opts provided sf dom env hl fn fid).2 = 0 := by
  cases hl with
  | false =>
    unfold GS.performSearch
    rw [if_neg (by simp)]
    obtain ⟨r0, evs, hAtt, hPSV⟩ :=
      performSearchVisible_spec q opts provided sf dom (env false) fn fid
    rw [hPSV]
    have h1 := attempt_providedCloses q opts provided sf dom (env false) fid false fn
    rw [hAtt] at h1
    simpa using h1
  | true =>
    unfold GS.performSearch
    rw [if_pos rfl]
    rcases hA : GS.attempt q opts provided sf dom (env true) fid true fn with ⟨out, tr⟩
    have h1 := attempt_providedCloses q opts provided sf dom (env true) fid true fn
    rw [hA] at h1
    simp only at h1
    cases out with
    | finished r0 => exact h1
    | escalate =>
      simp only
      obtain ⟨r2, evs2, hAtt2, hPSV2⟩ :=
        performSearchVisible_spec q opts provided sf dom (env false)
          (provided && !fn) (fid + 1)
      rw [hPSV2]
      have h2 := attempt_providedCloses q opts provided sf dom (env false) (fid + 1)
        false (provided && !fn)
      rw [hAtt2] at h2
      simp only at h2
      cases r2 with
      | ok resp => simp [providedCloses_append, h1, h2]
      | error msg =>
        simp only
        rw [providedCloses_append, providedCloses_append, h1, h2]
        cases hbw : (provided && !fn) <;>
          simp [hbw, providedCloses, List.countP_cons, List.countP_nil,
            Ev.isProvidedClose, apply_ite (List.countP Ev.isProvidedClose)]


/-! ### Correctness of the decimal printer: Nat.repr is injective, hence the
per-query state-file names of googleSearch.ts's multiGoogleSearch are
pairwise distinct -/

theorem toDigitsCore_eq_decRep (fuel : Nat) :
    ∀ (n : Nat) (ds : List Char), n < fuel →
      Nat.toDigitsCore 10 fuel n ds = decRep n ++ ds := by
  induction fuel with
  | zero => intro n ds h; omega
  | succ f ih =>
    intro n ds h
    rw [Nat.toDigitsCore]
    by_cases h10 : n / 10 = 0
    · have hn : n < 10 := by
        rcases Nat.lt_or_ge n 10 with hlt | hge
        · exact hlt
        · exact absurd h10 (by
            have : 0 < n / 10 := Nat.div_pos hge (by omega)
            omega)
      rw [if_pos h10, decRep]
      rw [dif_pos hn]
      simp [Nat.mod_eq_of_lt hn]
    · have hge : 10 ≤ n := by
        rcases Nat.lt_or_ge n 10 with hlt | hge2
        · exact absurd (Nat.div_eq_of_lt hlt) h10
        · exact hge2
      have hlt : n / 10 < f := by
        have h1 : n / 10 < n := Nat.div_lt_self (by omega) (by omega)
        omega
      rw [if_neg h10, ih (n / 10) _ hlt]
      conv_rhs => rw [decRep]
      rw [dif_neg (by omega)]
      simp

theorem digitVal_digitChar (d : Nat) (h : d < 10) :
    digitVal (Nat.digitChar d) = d := by
  interval_cases d <;> decide

theorem digitsVal_append_digit (l : List Char) (c : Char) :
    digitsVal (l ++ [c]) = 10 * digitsVal l + digitVal c := by
  unfold digitsVal
  rw [List.foldl_append]
  rfl

theorem digitsVal_decRep (n : Nat) : digitsVal (decRep n) = n := by
  induction n using Nat.strong_induction_on with
  | _ n ih =>
    rw [decRep]
    by_cases h : n < 10
    · rw [dif_pos h]
      have : digitsVal [Nat.digitChar n] = digitVal (Nat.digitChar n) := by
        unfold digitsVal
        simp
      rw [this, digitVal_digitChar n h]
    · rw [dif_neg h]
      rw [digitsVal_append_digit]
      rw [ih (n / 10) (Nat.div_lt_self (by omega) (by omega))]
      rw [digitVal_digitChar (n % 10) (Nat.mod_lt n (by omega))]
      omega

theorem decRep_injective (a b : Nat) (h : decRep a = decRep b) : a = b := by
  have := congrArg digitsVal h
  rwa [digitsVal_decRep, digitsVal_decRep] at this

theorem natRepr_eq_decRep (n : Nat) : (Nat.repr n).data = decRep n := by
  have : Nat.repr n = (Nat.toDigitsCore 10 (n + 1) n []).asString := rfl
  rw [this, toDigitsCore_eq_decRep (n + 1) n [] (by omega)]
  simp [List.asString]

theorem natRepr_injective (a b : Nat) (h : Nat.repr a = Nat.repr b) : a = b := by
  apply decRep_injective
  rw [← natRepr_eq_decRep, ← natRepr_eq_decRep, h]


theorem collectAll_ok (l : List (Except String SearchResponse))
    (h : ∀ x ∈ l, ∃ r, x = .ok r) :
    GS.collectAll l = .ok (l.map (okOr { query := "", results := [] })) := by
  induction l with
  | nil => rfl
  | cons a t ih =>
    obtain ⟨r, ha⟩ := h a (List.mem_cons_self a t)
    subst ha
    have ht := ih (fun x hx => h x (List.mem_cons_of_mem _ hx))
    simp [GS.collectAll, ht, okOr]

theorem googleSearch_isOk (q : String) (opts : SearchOptions) (provided : Bool)
    (fs : String → FileContent) (env : Bool → AttemptEnv) (d : Nat)
    (hL : ∀ b, (env b).launchFails = false)
    (hS : ∀ b, (env b).sessionSetupFails = false) :
    ∃ resp, (GS.googleSearch q opts provided fs env d).1 = .ok resp := by
  simp only [GS.googleSearch]
  exact performSearch_isOk q opts provided _ _ env (!opts.debug) false 0 hL hS

theorem googleSearch_ok_shape (q : String) (opts : SearchOptions) (provided : Bool)
    (fs : String → FileContent) (env : Bool → AttemptEnv) (d : Nat)
    (r : SearchResponse)
    (h : (GS.googleSearch q opts provided fs env d).1 = .ok r) :
    (∃ m, r = syntheticFailure q m) ∨
      ∃ b, r = { query := q, results := runExtraction (env b).page opts.limit } := by
  simp only [GS.googleSearch] at h
  exact performSearch_ok_shape q opts provided _ _ env (!opts.debug) false 0 r h

theorem isSyntheticFailure_syntheticFailure (q m : String) :
    (syntheticFailure q m).isSyntheticFailure = true := by
  simp [syntheticFailure, SearchResponse.isSyntheticFailure]

theorem stateFileForIndex_injective (opts : SearchOptions) (i j : Nat)
    (hne : i ≠ j) : GS.stateFileForIndex opts i ≠ GS.stateFileForIndex opts j := by
  intro heq
  unfold GS.stateFileForIndex at heq
  apply hne
  by_cases hsf : strIsEmpty (opts.stateFile.getD "") = true
  · rw [if_pos hsf, if_pos hsf] at heq
    have hd := congrArg String.data heq
    simp only [String.data_append] at hd
    have h1 := List.append_cancel_right hd
    have h2 := List.append_cancel_left h1
    rw [natRepr_eq_decRep, natRepr_eq_decRep] at h2
    exact decRep_injective i j h2
  · rw [if_neg hsf, if_neg hsf] at heq
    have hd := congrArg String.data heq
    simp only [String.data_append] at hd
    have h1 := List.append_cancel_left hd
    rw [natRepr_eq_decRep, natRepr_eq_decRep] at h1
    exact decRep_injective i j h1


/-! ## Claim theorems -/

/-- C1 (counterexample): the claim as stated is false on the code.  A query
whose browser-session setup fails (EngineUnavailable: context/page creation,
which happens before performSearch's try block) rejects its googleSearch
promise, and Promise.all then rejects the whole multiGoogleSearch call: in a
two-query batch where query 0's session setup throws, the batch call aborts
with that error even though query 1 alone would return a valid response. -/
theorem c1_counterexample :
    (GS.multiGoogleSearch ["a", "b"] {} (fun _ => fsAbsent)
        (fun i _ => if i = 0 then { sessionSetupFails := true }
          else { page := samplePage }) (fun _ => 0)).1 =
      .error "session setup failed" ∧
    (GS.googleSearch "b" { stateFile := some (GS.stateFileForIndex {} 1) } true
        fsAbsent (fun _ => { page := samplePage }) 0).1 =
      .ok { query := "b",
            results := [{ title := "T1", link := "https://x.example/",
                          snippet := "S1" }] } :=
  ⟨by decide, by decide⟩

/-- C1 (amended): provided each query's browser launch and context/page setup
succeed (the phase before the try block), every query of a batch resolves:
multiGoogleSearch returns one response per query, the i-th response computed
solely from the i-th query, its environment, its file system and its domain
pick, so one query's failure (search box missing, navigation timeout, blocked
page, persistence error) cannot cancel or affect a sibling; and a query whose
search box is missing resolves to exactly one synthetic result with title
"Search failed", empty link, and the failure detail as snippet. -/
theorem c1_amended (queries : List String) (opts : SearchOptions)
    (fss : Nat → String → FileContent) (envs : Nat → Bool → AttemptEnv)
    (ds : Nat → Nat)
    (hne : queries ≠ [])
    (hL : ∀ i b, (envs i b).launchFails = false)
    (hS : ∀ i b, (envs i b).sessionSetupFails = false) :
    (GS.multiGoogleSearch queries opts fss envs ds).1 =
      .ok ((List.range queries.length).map (fun i =>
        okOr { query := "", results := [] }
          (GS.perQueryOutcome queries opts fss envs ds i).1)) ∧
    ∀ q : String,
      (GS.googleSearch q {} true fsAbsent
          (fun _ => { searchBoxFound := false }) 0).1 =
        .ok (syntheticFailure q "Could not find search box") := by
  constructor
  · unfold GS.multiGoogleSearch
    rw [if_neg (by simpa [List.isEmpty_iff] using hne)]
    simp only
    have hall : ∀ x ∈ (List.range queries.length).map
        (fun i => (GS.perQueryOutcome queries opts fss envs ds i).1),
        ∃ r, x = .ok r := by
      intro x hx
      obtain ⟨i, hi, hxi⟩ := List.mem_map.mp hx
      subst hxi
      exact googleSearch_isOk _ _ _ _ _ _ (hL i) (hS i)
    rw [collectAll_ok _ hall, List.map_map]
    rfl
  · intro q
    rfl

/-- C1 (witness): a two-query batch where query 0 hits SearchBoxNotFound still
resolves, with both responses present in input order. -/
theorem c1_witness :
    (GS.multiGoogleSearch ["a", "b"] {} (fun _ => fsAbsent)
        (fun i _ => if i = 0 then { searchBoxFound := false }
          else { page := samplePage }) (fun _ => 0)).1 =
      .ok ((List.range (["a", "b"] : List String).length).map (fun i =>
        okOr { query := "", results := [] }
          (GS.perQueryOutcome ["a", "b"] {} (fun _ => fsAbsent)
            (fun i _ => if i = 0 then { searchBoxFound := false }
              else { page := samplePage }) (fun _ => 0) i).1)) ∧
    ∀ q : String,
      (GS.googleSearch q {} true fsAbsent
          (fun _ => { searchBoxFound := false }) 0).1 =
        .ok (syntheticFailure q "Could not find search box") :=
  c1_amended ["a", "b"] {} (fun _ => fsAbsent)
    (fun i _ => if i = 0 then { searchBoxFound := false }
      else { page := samplePage }) (fun _ => 0)
    (by decide)
    (by intro i b; by_cases h : i = 0 <;> simp [h])
    (by intro i b; by_cases h : i = 0 <;> simp [h])

/-- C2: for every query, options and environment, a successful response that
is not the synthetic failure response (a valid, non-failed search) has at most
options.limit results, whichever extraction strategy produced them, the
generic outbound-link fallback included. -/
theorem c2_results_within_limit (q : String) (opts : SearchOptions)
    (provided : Bool) (fs : String → FileContent) (env : Bool → AttemptEnv)
    (d : Nat) (r : SearchResponse)
    (hok : (GS.googleSearch q opts provided fs env d).1 = .ok r)
    (hvalid : r.isSyntheticFailure = false) :
    r.results.length ≤ opts.limit := by
  rcases googleSearch_ok_shape q opts provided fs env d r hok with ⟨m, hm⟩ | ⟨b, hb⟩
  · rw [hm, isSyntheticFailure_syntheticFailure] at hvalid
    cases hvalid
  · rw [hb]
    exact runExtraction_length_le _ _

/-- C2 (witness): a concrete successful search returns one result, within the
default limit of 10. -/
theorem c2_witness :
    (GS.googleSearch "q" {} false fsAbsent (fun _ => { page := samplePage }) 0).1 =
      .ok { query := "q",
            results := [{ title := "T1", link := "https://x.example/",
                          snippet := "S1" }] } ∧
    ({ query := "q",
       results := [{ title := "T1", link := "https://x.example/",
                     snippet := "S1" }] } : SearchResponse).isSyntheticFailure
      = false ∧
    ({ query := "q",
       results := [{ title := "T1", link := "https://x.example/",
                     snippet := "S1" }] } : SearchResponse).results.length ≤
      ({} : SearchOptions).limit :=
  ⟨by decide, by decide,
    c2_results_within_limit "q" {} false fsAbsent
      (fun _ => { page := samplePage }) 0 _ (by decide) (by decide)⟩

/-- C3 (counterexample): the claim quantifies over every SearchResponse
returned by googleSearch, but the synthetic failure response returned when the
search box is missing has an empty link (and its title is the "Search failed"
marker), so not every returned response has only non-empty titles and links. -/
theorem c3_counterexample :
    (GS.googleSearch "q" {} false fsAbsent
        (fun _ => { searchBoxFound := false }) 0).1 =
      .ok (syntheticFailure "q" "Could not find search box") ∧
    ¬ (∀ x ∈ (syntheticFailure "q" "Could not find search box").results,
        x.title ≠ "" ∧ x.link ≠ "") :=
  ⟨by decide, by decide⟩

/-- C3 (amended): restricted to successful responses that are not the
synthetic failure response, every result has a non-empty title and a
non-empty link: candidates with an empty title or link are dropped by the
filter of every extraction stage (both structural strategies and the generic
fallback). -/
theorem c3_nonempty_results (q : String) (opts : SearchOptions)
    (provided : Bool) (fs : String → FileContent) (env : Bool → AttemptEnv)
    (d : Nat) (r : SearchResponse) (x : SearchResult)
    (hok : (GS.googleSearch q opts provided fs env d).1 = .ok r)
    (hvalid : r.isSyntheticFailure = false)
    (hx : x ∈ r.results) :
    x.title ≠ "" ∧ x.link ≠ "" := by
  rcases googleSearch_ok_shape q opts provided fs env d r hok with ⟨m, hm⟩ | ⟨b, hb⟩
  · rw [hm, isSyntheticFailure_syntheticFailure] at hvalid
    cases hvalid
  · rw [hb] at hx
    exact mem_runExtraction_nonempty _ _ _ hx

/-- C3 (witness): the concrete extracted result has non-empty title and link. -/
theorem c3_witness :
    ({ title := "T1", link := "https://x.example/", snippet := "S1" } :
        SearchResult) ∈
      ({ query := "q",
         results := [{ title := "T1", link := "https://x.example/",
                       snippet := "S1" }] } : SearchResponse).results ∧
    ({ title := "T1", link := "https://x.example/", snippet := "S1" } :
        SearchResult).title ≠ "" ∧
    ({ title := "T1", link := "https://x.example/", snippet := "S1" } :
        SearchResult).link ≠ "" := by
  refine ⟨by decide, ?_⟩
  exact c3_nonempty_results "q" {} false fsAbsent
    (fun _ => { page := samplePage }) 0
    { query := "q",
      results := [{ title := "T1", link := "https://x.example/",
                    snippet := "S1" }] }
    { title := "T1", link := "https://x.example/", snippet := "S1" }
    (by decide) (by decide) (by decide)

/-- C4: escalation is one-shot.  For every query execution the trace carries
at most one headless-to-visible escalation; a session started in visible mode
(options.debug) never escalates; and when the headless attempt survives setup
and navigation but finds the challenge page, the query is restarted in visible
mode exactly once. -/
theorem c4_escalation_once (q : String) (opts : SearchOptions) (provided : Bool)
    (fs : String → FileContent) (env : Bool → AttemptEnv) (d : Nat) :
    escalations (GS.googleSearch q opts provided fs env d).2 ≤ 1 ∧
    (opts.debug = true →
      escalations (GS.googleSearch q opts provided fs env d).2 = 0) ∧
    (opts.debug = false →
      (env true).launchFails = false → (env true).sessionSetupFails = false →
      (env true).gotoFails = false → (env true).blockedAtHome = true →
      escalations (GS.googleSearch q opts provided fs env d).2 = 1) := by
  refine ⟨?_, ?_, ?_⟩
  · simp only [GS.googleSearch]
    exact performSearch_escalations_le q opts provided _ _ env (!opts.debug) false 0
  · intro hd
    simp only [GS.googleSearch, hd, Bool.not_true]
    exact performSearch_escalations_visible q opts provided _ _ env false 0
  · intro hd h1 h2 h3 h4
    simp only [GS.googleSearch, hd, Bool.not_false]
    exact performSearch_escalations_blocked q opts provided _ _ env false 0 h1 h2 h3 h4

/-- C4 (witness): a session whose URL always matches a challenge pattern
escalates exactly once and does not loop. -/
theorem c4_witness :
    escalations (GS.googleSearch "q" {} false fsAbsent
        (fun _ => { blockedAtHome := true, page := samplePage }) 0).2 = 1 :=
  (c4_escalation_once "q" {} false fsAbsent
      (fun _ => { blockedAtHome := true, page := samplePage }) 0).2.2
    rfl rfl rfl rfl rfl

/-- C5 (counterexample): in src/services/googleSearch.ts the visible-mode
challenge wait is bounded: with the default timeout of 60000 ms the trace
carries a wait-for-challenge-escape with a fixed timeout of 120000 ms
(timeout * 2) and no unbounded wait (timeout 0), contradicting "no fixed
timeout on that wait". -/
theorem c5_counterexample :
    (GS.googleSearch "q" { debug := true } false fsAbsent
        (fun _ => { blockedAtHome := true, searchBoxFound := false }) 0).2 =
      [.launchBrowser 0 false, .goto "https://www.google.com",
       .waitEscapeChallenge GS.captchaPatterns (60000 * 2)] ∧
    Ev.waitEscapeChallenge GS.captchaPatterns 0 ∉
      (GS.googleSearch "q" { debug := true } false fsAbsent
        (fun _ => { blockedAtHome := true, searchBoxFound := false }) 0).2 ∧
    (60000 * 2 : Nat) ≠ 0 :=
  ⟨by decide, by decide, by decide⟩

/-- C5 (amended): the two implementations disagree.  In the alternate
implementation (part_002, handleBlocked) a challenge in visible mode suspends
with page.waitForURL until the URL escapes every challenge pattern, with
timeout 0 - Playwright's convention for no timeout, a genuinely indefinite
wait - and a challenge while headless escalates instead; in
src/services/googleSearch.ts the same wait is bounded by 2 x timeoutMs. -/
theorem c5_wait_semantics :
    (∀ b : Bool,
      GS2.handleBlocked true false = .waitForHuman GS2.captchaPatterns 0 ∧
      GS2.handleBlocked true true = .escalateToVisible ∧
      GS2.handleBlocked false b = .continueSearch) ∧
    ∀ (t : Nat) (q : String),
      (GS.googleSearch q { timeout := t, debug := true } false fsAbsent
          (fun _ => { blockedAtHome := true, searchBoxFound := false }) 0).2 =
        [.launchBrowser 0 false, .goto "https://www.google.com",
         .waitEscapeChallenge GS.captchaPatterns (t * 2)] :=
  ⟨fun _ => ⟨rfl, rfl, rfl⟩, fun _ _ => rfl⟩

/-- C6 (counterexample): resources are not released on every exit path.  In
debug (visible) mode with no caller-supplied browser, a successful query exits
leaving the launched browser, context and page open: the trace has one launch
and no close events. -/
theorem c6_counterexample :
    (GS.googleSearch "q" { debug := true } false fsAbsent
        (fun _ => { page := samplePage }) 0).2 =
      [.launchBrowser 0 false, .goto "https://www.google.com", .submitQuery "q",
       .writeFile "./browser-state.json",
       .writeFile "./browser-state-fingerprint.json"] ∧
    launches (GS.googleSearch "q" { debug := true } false fsAbsent
        (fun _ => { page := samplePage }) 0).2 = 1 ∧
    ownedCloses (GS.googleSearch "q" { debug := true } false fsAbsent
        (fun _ => { page := samplePage }) 0).2 = 0 ∧
    Ev.closeContext ∉ (GS.googleSearch "q" { debug := true } false fsAbsent
        (fun _ => { page := samplePage }) 0).2 ∧
    Ev.closePage ∉ (GS.googleSearch "q" { debug := true } false fsAbsent
        (fun _ => { page := samplePage }) 0).2 :=
  ⟨by decide, by decide, by decide, by decide, by decide⟩

/-- C6 (amended): the caller-supplied browser is never closed by a query, on
any path; and outside debug mode, whenever every attempt's browser launch and
session setup succeed, every browser the query launched is closed by the time
it exits, on success, failure and escalation paths alike (the trace balances
launches against closes of owned browsers). -/
theorem c6_resource_release (q : String) (opts : SearchOptions) (provided : Bool)
    (fs : String → FileContent) (env : Bool → AttemptEnv) (d : Nat) :
    providedCloses (GS.googleSearch q opts provided fs env d).2 = 0 ∧
    (opts.debug = false →
      (∀ b, (env b).launchFails = false) →
      (∀ b, (env b).sessionSetupFails = false) →
      launches (GS.googleSearch q opts provided fs env d).2 =
        ownedCloses (GS.googleSearch q opts provided fs env d).2) := by
  constructor
  · simp only [GS.googleSearch]
    exact performSearch_providedCloses q opts provided _ _ env (!opts.debug) false 0
  · intro hd hL hS
    simp only [GS.googleSearch]
    exact performSearch_balance q opts provided _ _ env (!opts.debug) false 0 hL hS hd

/-- C6 (witness): on a concrete non-debug run with an escalation, the single
launch-and-close pair balances. -/
theorem c6_witness :
    launches (GS.googleSearch "q" {} false fsAbsent
        (fun _ => { blockedAtHome := true, page := samplePage }) 0).2 =
      ownedCloses (GS.googleSearch "q" {} false fsAbsent
        (fun _ => { blockedAtHome := true, page := samplePage }) 0).2 :=
  (c6_resource_release "q" {} false fsAbsent
      (fun _ => { blockedAtHome := true, page := samplePage }) 0).2
    rfl (fun _ => rfl) (fun _ => rfl)

/-- C7 (counterexample): the two persisted files are written sequentially with
no error handling between them, and the save runs inside performSearch's try
block.  With a failing snapshot write (and a sidecar write that would
succeed), no file at all is written - the sidecar write is prevented - and the
query's extracted results are discarded: the caller receives the synthetic
failure response instead. -/
theorem c7_counterexample :
    (saveBrowserState { snapshotWriteFails := true, sidecarWriteFails := false }
        "./browser-state.json").1 = [] ∧
    (saveBrowserState {} "./browser-state.json").1 =
      ["./browser-state.json", "./browser-state-fingerprint.json"] ∧
    (GS.googleSearch "q" {} false fsAbsent
        (fun _ => { page := samplePage,
                    save := { snapshotWriteFails := true } }) 0).1 =
      .ok (syntheticFailure "q" "storageState failed") ∧
    (syntheticFailure "q" "storageState failed").results ≠
      runExtraction samplePage 10 :=
  ⟨by decide, by decide, by decide, by decide⟩

/-- C7 (amended): saveBrowserState writes the snapshot first and the sidecar
second; a snapshot failure prevents the sidecar write, while a sidecar failure
leaves the already-written snapshot in place; and a persistence failure is
caught at the query boundary - the query resolves (the batch is not aborted)
but with the synthetic failure response in place of its extracted results. -/
theorem c7_persistence (sf : String) (b : Bool) (q : String) (page : ResultsPage)
    (fs : String → FileContent) (d : Nat) :
    saveBrowserState { snapshotWriteFails := true, sidecarWriteFails := b } sf =
      ([], some "storageState failed") ∧
    saveBrowserState { snapshotWriteFails := false, sidecarWriteFails := true } sf =
      ([sf], some "writeFileSync failed") ∧
    saveBrowserState {} sf = ([sf, fingerprintFileOf sf], none) ∧
    (GS.googleSearch q {} false fs
        (fun _ => { page := page,
                    save := { snapshotWriteFails := true, sidecarWriteFails := b } })
        d).1 =
      .ok (syntheticFailure q "storageState failed") := by
  refine ⟨?_, rfl, rfl, rfl⟩
  simp [saveBrowserState]

/-- C8 (counterexample): with the snapshot file present and the sidecar
corrupt, loadSavedState returns the empty SavedState together with the
snapshot reference - not "no snapshot reference" as the claim states. -/
theorem c8_counterexample :
    loadSavedState fsCorruptSidecar "./browser-state.json" =
      (some "./browser-state.json", {}) ∧
    (some "./browser-state.json" : Option String) ≠ none :=
  ⟨by decide, by decide⟩

/-- C8 (amended): loading never fails - loadSavedState is a total function.
When the snapshot file is missing the result is no snapshot and the empty
SavedState (whatever the sidecar holds); when the snapshot exists but the
sidecar is missing or corrupt (its JSON does not parse, which is caught and
logged), the snapshot reference is still returned with an empty SavedState;
when both exist and parse, the stored SavedState is returned. -/
theorem c8_load_total (fs : String → FileContent) (sf : String) :
    ((fs sf).existsOnDisk = false → loadSavedState fs sf = (none, {})) ∧
    ((fs sf).existsOnDisk = true →
      (fs (fingerprintFileOf sf)).existsOnDisk = false →
      loadSavedState fs sf = (some sf, {})) ∧
    ((fs sf).existsOnDisk = true → fs (fingerprintFileOf sf) = .invalidJson →
      loadSavedState fs sf = (some sf, {})) ∧
    (∀ st, (fs sf).existsOnDisk = true →
      fs (fingerprintFileOf sf) = .savedJson st →
      loadSavedState fs sf = (some sf, st)) := by
  refine ⟨?_, ?_, ?_, ?_⟩
  · intro h1
    simp [loadSavedState, h1]
  · intro h1 h2
    simp [loadSavedState, h1, h2]
  · intro h1 h2
    simp [loadSavedState, h1, h2]
  · intro st h1 h2
    simp [loadSavedState, h1, h2,
      show (FileContent.savedJson st).existsOnDisk = true from rfl]

/-- C8 (witness): a concrete load with both files present and valid returns
the stored SavedState with the snapshot reference. -/
theorem c8_witness :
    (fsWithState "./bs.json").existsOnDisk = true ∧
    fsWithState (fingerprintFileOf "./bs.json") =
      .savedJson { googleDomain := some "https://www.google.ca" } ∧
    loadSavedState fsWithState "./bs.json" =
      (some "./bs.json", { googleDomain := some "https://www.google.ca" }) :=
  ⟨by decide, by decide,
    (c8_load_total fsWithState "./bs.json").2.2.2
      { googleDomain := some "https://www.google.ca" } (by decide) (by decide)⟩

/-- C9 (counterexample): the claim fails for the alternate implementation
(part_002): its multiGoogleSearch spreads the batch options without
overriding stateFile, so two concurrent queries of one batch resolve the very
same state file. -/
theorem c9_counterexample :
    GS2.stateFileForIndex {} 0 = GS2.stateFileForIndex {} 1 ∧ (0 : Nat) ≠ 1 :=
  ⟨rfl, by decide⟩

/-- C9 (amended): in src/services/googleSearch.ts each batch query gets the
batch state-file path suffixed with its index (or an indexed default), and
these per-query state files are pairwise distinct, so no two concurrent
queries of a batch touch the same SavedState file; the alternate
implementation (part_002) instead gives every query of the batch the same
batch-level state file. -/
theorem c9_state_isolation :
    (∀ (opts : SearchOptions) (i j : Nat), i ≠ j →
      GS.stateFileForIndex opts i ≠ GS.stateFileForIndex opts j) ∧
    ∀ (opts : SearchOptions) (i : Nat),
      GS2.stateFileForIndex opts i = opts.stateFile.getD "./browser-state.json" :=
  ⟨stateFileForIndex_injective, fun _ _ => rfl⟩

/-- C9 (witness): queries 0 and 1 of a default batch use distinct state files. -/
theorem c9_witness :
    (0 : Nat) ≠ 1 ∧ GS.stateFileForIndex {} 0 ≠ GS.stateFileForIndex {} 1 :=
  ⟨by decide, c9_state_isolation.1 {} 0 1 (by decide)⟩

/-- C10: an empty query list makes multiGoogleSearch throw "At least one
search query is required" before any browser is launched: the outcome is that
error and the trace is empty - no responses and no launch event. -/
theorem c10_empty_batch (opts : SearchOptions) (fss : Nat → String → FileContent)
    (envs : Nat → Bool → AttemptEnv) (ds : Nat → Nat) :
    GS.multiGoogleSearch [] opts fss envs ds =
      (.error "At least one search query is required", []) := rfl

end WebSearchMcp
